import Mathlib

/-!
A shallow embedding of the decision engine of the spardex credit-check API:
the tier enumeration, the score-delta calculator (postcode / NACE / company
age), tier determination with restriction overrides, the rule-result
aggregator, the bureau-failure rule branches, the VIES VAT-validation retry
loop, and the data-enrichment orchestration.  Numbers are modelled as
rationals, JS strings as Lean strings (prefix and infix tests go through
`String.data`).
-/

/-- Risk tier, ordered by its numeric ordinal exactly as in the source enum
(`REJECTED = 0 < MANUAL_REVIEW = 1 < POOR = 2 < FAIR = 3 < GOOD = 4 <
EXCELLENT = 5`). -/
inductive Tier where
  | REJECTED
  | MANUAL_REVIEW
  | POOR
  | FAIR
  | GOOD
  | EXCELLENT
deriving DecidableEq, Repr

/-- The numeric value of the `Tier` enum member in the source. -/
def Tier.ord : Tier → Nat
  | .REJECTED => 0
  | .MANUAL_REVIEW => 1
  | .POOR => 2
  | .FAIR => 3
  | .GOOD => 4
  | .EXCELLENT => 5

/-- JS `a.startsWith(b)`, modelled on the character lists. -/
def strStartsWith (s p : String) : Bool :=
  p.data.isPrefixOf s.data

/-- JS string truthiness of a nullable string: `null`/`undefined` and the
empty string are falsy. -/
def strTruthy : Option String → Bool
  | none => false
  | some s => s ≠ ""

/-- JS `s.toUpperCase()` (ASCII model). -/
def toUpperStr (s : String) : String :=
  ⟨s.data.map Char.toUpper⟩

/-- Rendering of a rational in message strings (models JS number
formatting; only decorative `description`/`reason` fields use it). -/
def numStr (q : ℚ) : String :=
  if q.den = 1 then toString q.num else toString q.num ++ "/" ++ toString q.den

/-- Rendering `q.toFixed(1)` (decorative fields only). -/
def toFixed1 (q : ℚ) : String :=
  numStr q

/-- A delta outcome (`number | "reject" | "manual"` in the source):
either a numeric adjustment or one of the two sentinel outcomes. -/
inductive DeltaOutcome where
  | num (val : ℚ)
  | reject
  | manual
deriving DecidableEq, Repr

/-- Source of a delta (`"postcode" | "nace" | "age"`). -/
inductive DeltaSource where
  | postcode
  | nace
  | age
deriving DecidableEq, Repr

/-- `sourceValue` of a delta result (`string | number` in the source). -/
inductive SourceValue where
  | str (s : String)
  | num (q : ℚ)
deriving DecidableEq, Repr

/-- Result of a single delta calculation (`DeltaResult` in
`score-calculation/types.ts`). -/
structure DeltaResult where
  source : DeltaSource
  sourceValue : SourceValue
  delta : DeltaOutcome
  description : String
deriving DecidableEq, Repr

/-- Postcode delta configuration entry. The source field `prefix` is
renamed `pfx` (reserved word in this development). -/
structure PostcodeDelta where
  pfx : String
  region : String
  delta : ℚ
deriving DecidableEq, Repr

/-- NACE code delta configuration entry. -/
structure NaceDelta where
  codes : List String
  sector : String
  excellent : DeltaOutcome
  good : DeltaOutcome
  fair : DeltaOutcome
  poor : DeltaOutcome
deriving DecidableEq, Repr

/-- Company-age delta configuration entry; `maxMonths = none` models the
source `Infinity` bound. -/
structure AgeDelta where
  minMonths : ℚ
  maxMonths : Option ℚ
  label : String
  excellent : DeltaOutcome
  good : DeltaOutcome
  fair : DeltaOutcome
  poor : DeltaOutcome
deriving DecidableEq, Repr

set_option maxHeartbeats 1000000 in
/-- The postcode delta table of `config/delta-config.ts`. -/
def postcodeDeltas : List PostcodeDelta := [
  ⟨"1340", "Louvain-la-Neuve", 20⟩,
  ⟨"8300", "Knokke-Heist", 20⟩,
  ⟨"200", "Antwerpen stad", -30⟩,
  ⟨"100", "Brussel stad", -30⟩,
  ⟨"108", "Molenbeek", -30⟩,
  ⟨"10", "Brussel Rand", -20⟩,
  ⟨"11", "Brussel Rand", -20⟩,
  ⟨"12", "Brussel Rand", -20⟩,
  ⟨"20", "Antwerpen Haven", -15⟩,
  ⟨"21", "Antwerpen Haven", -15⟩,
  ⟨"22", "Antwerpse Kempen", 0⟩,
  ⟨"23", "Antwerpse Kempen", 0⟩,
  ⟨"24", "Antwerpse Kempen", 0⟩,
  ⟨"25", "Antwerpse Kempen", 0⟩,
  ⟨"26", "Antwerpse Kempen", 0⟩,
  ⟨"27", "Antwerpse Kempen", 0⟩,
  ⟨"28", "Antwerpse Kempen", 0⟩,
  ⟨"29", "Antwerpse Kempen", 0⟩,
  ⟨"30", "Vlaams-Brabant", 10⟩,
  ⟨"31", "Vlaams-Brabant", 10⟩,
  ⟨"32", "Vlaams-Brabant", 10⟩,
  ⟨"33", "Vlaams-Brabant", 10⟩,
  ⟨"34", "Vlaams-Brabant", 10⟩,
  ⟨"40", "Luik", -20⟩,
  ⟨"41", "Luik", -20⟩,
  ⟨"42", "Luik", -20⟩,
  ⟨"43", "Luik", -20⟩,
  ⟨"44", "Luik", -20⟩,
  ⟨"45", "Luik", -20⟩,
  ⟨"46", "Luik", -20⟩,
  ⟨"47", "Luik", -20⟩,
  ⟨"48", "Luik", -20⟩,
  ⟨"49", "Luik", -20⟩,
  ⟨"50", "Namen", 0⟩,
  ⟨"51", "Namen", 0⟩,
  ⟨"52", "Namen", 0⟩,
  ⟨"53", "Namen", 0⟩,
  ⟨"54", "Namen", 0⟩,
  ⟨"55", "Namen", 0⟩,
  ⟨"56", "Namen", 0⟩,
  ⟨"57", "Namen", 0⟩,
  ⟨"58", "Namen", 0⟩,
  ⟨"59", "Namen", 0⟩,
  ⟨"60", "Charleroi", -25⟩,
  ⟨"61", "Charleroi", -25⟩,
  ⟨"62", "Charleroi", -25⟩,
  ⟨"63", "Charleroi", -25⟩,
  ⟨"64", "Charleroi", -25⟩,
  ⟨"65", "Charleroi", -25⟩,
  ⟨"80", "West-Vlaanderen", 10⟩,
  ⟨"81", "West-Vlaanderen", 10⟩,
  ⟨"82", "West-Vlaanderen", 10⟩,
  ⟨"83", "West-Vlaanderen", 10⟩,
  ⟨"84", "West-Vlaanderen", 10⟩,
  ⟨"85", "West-Vlaanderen", 10⟩,
  ⟨"86", "West-Vlaanderen", 10⟩,
  ⟨"87", "West-Vlaanderen", 10⟩,
  ⟨"88", "West-Vlaanderen", 10⟩,
  ⟨"89", "West-Vlaanderen", 10⟩,
  ⟨"90", "Oost-Vlaanderen", 0⟩,
  ⟨"91", "Oost-Vlaanderen", 0⟩,
  ⟨"92", "Oost-Vlaanderen", 0⟩,
  ⟨"93", "Oost-Vlaanderen", 0⟩,
  ⟨"94", "Oost-Vlaanderen", 0⟩,
  ⟨"95", "Oost-Vlaanderen", 0⟩,
  ⟨"96", "Oost-Vlaanderen", 0⟩,
  ⟨"97", "Oost-Vlaanderen", 0⟩,
  ⟨"98", "Oost-Vlaanderen", 0⟩,
  ⟨"99", "Oost-Vlaanderen", 0⟩]

/-- The NACE delta table of `config/delta-config.ts`. -/
def naceDeltas : List NaceDelta := [
  ⟨["46.72"], "Diamanthandel", .reject, .reject, .reject, .manual⟩,
  ⟨["45.11", "45.19"], "Autohandel", .num (-20), .num (-20), .num 0, .reject⟩,
  ⟨["49.32"], "Taxi's", .num (-20), .num (-20), .num 0, .reject⟩,
  ⟨["77.11"], "Autoverhuur", .num (-20), .num (-20), .num 0, .reject⟩,
  ⟨["55", "56"], "Horeca", .num (-20), .num (-20), .num 0, .num 0⟩,
  ⟨["92", "93"], "Gokken, Sport & Recreatie", .reject, .reject, .num 0, .manual⟩]

/-- The company-age delta table of `config/delta-config.ts`
(month bounds: min inclusive, max exclusive, `none` = Infinity). -/
def ageDeltas : List AgeDelta := [
  ⟨0, some 3, "<3m", .reject, .reject, .reject, .num 0⟩,
  ⟨3, some 6, "3-6m", .reject, .reject, .reject, .num 0⟩,
  ⟨6, some 12, "6-12m", .reject, .reject, .num (-30), .num 0⟩,
  ⟨12, some 24, "12-24m (1-2j)", .reject, .num (-20), .num (-20), .num 0⟩,
  ⟨24, some 36, "24-36m (2-3j)", .num (-20), .num (-15), .num (-10), .num 0⟩,
  ⟨36, some 48, "36-48m (3-4j)", .num (-15), .num (-15), .num 0, .num 0⟩,
  ⟨48, some 60, "48-60m (4-5j)", .num (-5), .num 0, .num 0, .num 0⟩,
  ⟨60, none, "5+ years", .num 0, .num 0, .num 0, .num 0⟩]

/-- Tier key for accessing tier-specific deltas
(`TierKey` in `score-calculation/types.ts`). -/
inductive TierKey where
  | excellent
  | good
  | fair
  | poor
deriving DecidableEq, Repr

/-- `getTierKey` of `score-calculation/types.ts`: maps the four concrete
tiers to their key and the terminal tiers to `null`. -/
def getTierKey : Tier → Option TierKey
  | .EXCELLENT => some .excellent
  | .GOOD => some .good
  | .FAIR => some .fair
  | .POOR => some .poor
  | _ => none

/-- Field access `entry[tierKey]` on a NACE delta entry. -/
def NaceDelta.forKey (e : NaceDelta) : TierKey → DeltaOutcome
  | .excellent => e.excellent
  | .good => e.good
  | .fair => e.fair
  | .poor => e.poor

/-- Field access `bracket[tierKey]` on an age delta entry. -/
def AgeDelta.forKey (e : AgeDelta) : TierKey → DeltaOutcome
  | .excellent => e.excellent
  | .good => e.good
  | .fair => e.fair
  | .poor => e.poor

/-- Postal-code cleaning of `getPostcodeDelta`: strip whitespace then all
non-digits (net effect: keep the digit characters; the trailing `trim` of
the source is a no-op on a digits-only string). -/
def cleanPostal (s : String) : String :=
  ⟨s.data.filter Char.isDigit⟩

/-- The sort of the postcode table performed inside `getPostcodeDelta`:
stable sort by descending prefix length. -/
def sortedPostcodeDeltas : List PostcodeDelta :=
  postcodeDeltas.mergeSort (fun a b => b.pfx.length ≤ a.pfx.length)

/-- `getPostcodeDelta` of `postcode-delta.ts`.  A `none` or empty postal
code hits the source's falsy `!postalCode` guard. -/
def getPostcodeDelta (postalCode : Option String) : DeltaResult :=
  match postalCode with
  | none =>
    ⟨.postcode, .str "unknown", .num 0, "Postal code unavailable: no adjustment applied"⟩
  | some pc =>
    if pc = "" then
      ⟨.postcode, .str "unknown", .num 0, "Postal code unavailable: no adjustment applied"⟩
    else
      let cleanCode := cleanPostal pc
      if cleanCode = "" then
        ⟨.postcode, .str pc, .num 0,
          "Invalid postal code \"" ++ pc ++ "\": no adjustment applied"⟩
      else
        match sortedPostcodeDeltas.find? (fun entry => strStartsWith cleanCode entry.pfx) with
        | some entry =>
          let deltaStr := if entry.delta ≥ 0 then "+" ++ numStr entry.delta else numStr entry.delta
          ⟨.postcode, .str pc, .num entry.delta,
            "Postal code " ++ pc ++ " (" ++ entry.region ++ "): " ++ deltaStr⟩
        | none =>
          ⟨.postcode, .str pc, .num 0,
            "Postal code " ++ pc ++ ": no adjustment (default region)"⟩

/-- NACE-code cleaning of `naceCodeMatches`: strip whitespace. -/
def cleanNaceCode (s : String) : String :=
  ⟨s.data.filter (fun c => !c.isWhitespace)⟩

/-- `naceCodeMatches` of `nace-delta.ts`: exact match, or for 2-character
patterns a segment-prefix match (code equals the pattern, continues with a
`.` at index 2, or starts with the pattern followed by `.`). -/
def naceCodeMatches (code : String) (patterns : List String) : Bool :=
  let cleanCode := cleanNaceCode code
  patterns.any fun pat =>
    if cleanCode = pat then true
    else if pat.length = 2 && strStartsWith cleanCode pat then
      cleanCode.length = 2 || cleanCode.data.get? 2 = some '.'
        || strStartsWith cleanCode (pat ++ ".")
    else false

/-- `findNaceEntry` of `nace-delta.ts`: first table entry whose pattern
list matches the code. -/
def findNaceEntry (naceCode : String) : Option NaceDelta :=
  naceDeltas.find? (fun entry => naceCodeMatches naceCode entry.codes)

/-- Loop state of `getWorstNumericNaceDelta`. -/
structure NaceScanState where
  worstDelta : ℚ
  matched : Option (NaceDelta × String)
deriving DecidableEq, Repr

/-- Inner loop of `getWorstNumericNaceDelta` over the four tier columns of
one matching entry: keep the most negative numeric value seen. -/
def naceScanEntry (entry : NaceDelta) (code : String) (st : NaceScanState) : NaceScanState :=
  [entry.excellent, entry.good, entry.fair, entry.poor].foldl
    (fun st v =>
      match v with
      | .num q => if q < st.worstDelta then ⟨q, some (entry, code)⟩ else st
      | _ => st)
    st

/-- `getWorstNumericNaceDelta` of `nace-delta.ts`. -/
def getWorstNumericNaceDelta (naceCodes : List String) : DeltaResult :=
  if naceCodes = [] then
    ⟨.nace, .str "none", .num 0, "No NACE codes: no adjustment applied"⟩
  else
    let final := naceCodes.foldl
      (fun st code =>
        match findNaceEntry code with
        | none => st
        | some entry => naceScanEntry entry code st)
      ⟨0, none⟩
    match final.matched with
    | some (entry, code) =>
      ⟨.nace, .str code, .num final.worstDelta,
        "NACE " ++ code ++ " (" ++ entry.sector ++ "): " ++ numStr final.worstDelta⟩
    | none =>
      ⟨.nace, .str (String.intercalate ", " naceCodes), .num 0,
        "No matching NACE delta rules: no adjustment applied"⟩

/-- One step of the `getNaceOutcomeForTier` scan: precedence
reject > manual > most-negative numeric. -/
def naceOutcomeStep (tierKey : TierKey)
    (st : Option (DeltaOutcome × NaceDelta × String)) (code : String) :
    Option (DeltaOutcome × NaceDelta × String) :=
  match findNaceEntry code with
  | none => st
  | some entry =>
    let outcome := entry.forKey tierKey
    match st with
    | none => some (outcome, entry, code)
    | some (worst, _, _) =>
      if outcome = .reject then some (.reject, entry, code)
      else if outcome = .manual ∧ worst ≠ .reject then some (.manual, entry, code)
      else
        match outcome, worst with
        | .num o, .num w => if o < w then some (outcome, entry, code) else st
        | _, _ => st

/-- `getNaceOutcomeForTier` of `nace-delta.ts`: the worst outcome at the
given tier column across all matching NACE codes. -/
def getNaceOutcomeForTier (naceCodes : List String) (tier : Tier) :
    Option (DeltaOutcome × NaceDelta × String) :=
  if naceCodes = [] then none
  else
    match getTierKey tier with
    | none => none
    | some tierKey => naceCodes.foldl (naceOutcomeStep tierKey) none

/-- `findAgeBracket` of `age-delta.ts`: first bracket with
`minMonths ≤ ageMonths < maxMonths` (max `none` = Infinity). -/
def findAgeBracket (ageMonths : ℚ) : Option AgeDelta :=
  ageDeltas.find? (fun entry =>
    decide (entry.minMonths ≤ ageMonths) &&
      (match entry.maxMonths with
       | none => true
       | some m => decide (ageMonths < m)))

/-- `getWorstNumericAgeDelta` of `age-delta.ts`. -/
def getWorstNumericAgeDelta (companyAgeYears : ℚ) : DeltaResult :=
  let ageMonths := companyAgeYears * 12
  match findAgeBracket ageMonths with
  | none =>
    ⟨.age, .num companyAgeYears, .num 0,
      "Company age " ++ toFixed1 companyAgeYears ++ " years: no matching bracket"⟩
  | some bracket =>
    let worstDelta := [bracket.excellent, bracket.good, bracket.fair, bracket.poor].foldl
      (fun worst v =>
        match v with
        | .num q => if q < worst then q else worst
        | _ => worst)
      0
    if worstDelta < 0 then
      ⟨.age, .num companyAgeYears, .num worstDelta,
        "Company age " ++ toFixed1 companyAgeYears ++ " years (" ++ bracket.label
          ++ "): " ++ numStr worstDelta⟩
    else
      ⟨.age, .num companyAgeYears, .num 0,
        "Company age " ++ toFixed1 companyAgeYears ++ " years (" ++ bracket.label
          ++ "): no adjustment"⟩

/-- `getAgeOutcomeForTier` of `age-delta.ts`. -/
def getAgeOutcomeForTier (companyAgeYears : ℚ) (tier : Tier) :
    Option (DeltaOutcome × AgeDelta) :=
  let ageMonths := companyAgeYears * 12
  match findAgeBracket ageMonths with
  | none => none
  | some bracket =>
    match getTierKey tier with
    | none => none
    | some tierKey => some (bracket.forKey tierKey, bracket)

/-- Per-tier threshold record (`TierThresholds` in `config/tier-config.ts`),
restricted to the fields consumed by the embedded functions (the fraud,
legal-form, asset, insurance and financial-terms fields are read only by
rules outside the claims under study). -/
structure TierThresholds where
  creditRatingMin : ℚ
  minCompanyYears : ℚ
  maxAdminBankruptcies : Nat
  bankruptcyScopeYears : ℚ
deriving DecidableEq, Repr

/-- The static threshold table of `config/tier-config.ts`.  The source
`Record` is keyed by the four concrete tiers only; the two terminal tiers
are mapped to the POOR record here purely to make the function total — no
embedded call site ever passes them. -/
def tierThresholds : Tier → TierThresholds
  | .EXCELLENT => ⟨70, 5, 0, 10⟩
  | .GOOD => ⟨55, 3, 1, 7⟩
  | .FAIR => ⟨35, 2, 2, 5⟩
  | _ => ⟨0, 1, 3, 3⟩

/-- `determineTierFromScore` of the score calculator: walk the four
concrete tiers best→worst and return the first whose credit floor is at or
below the adjusted score; below every floor means REJECTED. -/
def determineTierFromScore (adjustedScore : ℚ) : Tier :=
  if adjustedScore ≥ (tierThresholds .EXCELLENT).creditRatingMin then .EXCELLENT
  else if adjustedScore ≥ (tierThresholds .GOOD).creditRatingMin then .GOOD
  else if adjustedScore ≥ (tierThresholds .FAIR).creditRatingMin then .FAIR
  else if adjustedScore ≥ (tierThresholds .POOR).creditRatingMin then .POOR
  else .REJECTED

/-- `ScoreCalculationInput` of the score calculator. -/
structure ScoreCalculationInput where
  creditRating : ℚ
  postalCode : Option String
  naceCodes : List String
  companyAgeYears : ℚ
deriving DecidableEq, Repr

/-- `ScoreCalculationResult` of `score-calculation/types.ts`. -/
structure ScoreCalculationResult where
  baseScore : ℚ
  adjustedScore : ℚ
  deltas : List DeltaResult
  totalNumericDelta : ℚ
  determinedTier : Tier
  naceRestriction : Option DeltaOutcome
  ageRestriction : Option DeltaOutcome
  finalTier : Tier
  hasReject : Bool
  hasManualReview : Bool
deriving DecidableEq, Repr

/-- Steps 6–9 of `calculateAdjustedScore` (tier determination, the
early REJECTED return, and the restriction check at the determined tier).
Split out at the exact source branch point so the early-return behaviour
can be stated on its own. -/
def scoreRestrictionPhase (baseScore adjustedScore : ℚ) (deltas : List DeltaResult)
    (totalNumericDelta : ℚ) (naceCodes : List String) (companyAgeYears : ℚ) :
    ScoreCalculationResult :=
  let determinedTier := determineTierFromScore adjustedScore
  if determinedTier = Tier.REJECTED then
    ⟨baseScore, adjustedScore, deltas, totalNumericDelta, determinedTier,
      none, none, Tier.REJECTED, true, false⟩
  else
    let naceResult := getNaceOutcomeForTier naceCodes determinedTier
    let naceRestriction : Option DeltaOutcome := naceResult.map (·.1)
    let ageResult := getAgeOutcomeForTier companyAgeYears determinedTier
    let ageRestriction : Option DeltaOutcome := ageResult.map (·.1)
    if naceRestriction = some .reject ∨ ageRestriction = some .reject then
      let deltas := deltas ++
        (match naceRestriction, naceResult with
         | some .reject, some (_, entry, code) =>
           [⟨.nace, .str code, .reject,
             "NACE " ++ code ++ " (" ++ entry.sector ++ ") causes rejection"⟩]
         | _, _ => []) ++
        (match ageRestriction, ageResult with
         | some .reject, some (_, bracket) =>
           [⟨.age, .num companyAgeYears, .reject,
             "Company age " ++ toFixed1 companyAgeYears ++ " years (" ++ bracket.label
               ++ ") causes rejection"⟩]
         | _, _ => [])
      ⟨baseScore, adjustedScore, deltas, totalNumericDelta, determinedTier,
        naceRestriction, ageRestriction, Tier.REJECTED, true, false⟩
    else if naceRestriction = some .manual ∨ ageRestriction = some .manual then
      let deltas := deltas ++
        (match naceRestriction, naceResult with
         | some .manual, some (_, entry, code) =>
           [⟨.nace, .str code, .manual,
             "NACE " ++ code ++ " (" ++ entry.sector ++ ") requires manual review"⟩]
         | _, _ => []) ++
        (match ageRestriction, ageResult with
         | some .manual, some (_, bracket) =>
           [⟨.age, .num companyAgeYears, .manual,
             "Company age " ++ toFixed1 companyAgeYears ++ " years (" ++ bracket.label
               ++ ") requires manual review"⟩]
         | _, _ => [])
      ⟨baseScore, adjustedScore, deltas, totalNumericDelta, determinedTier,
        naceRestriction, ageRestriction, Tier.MANUAL_REVIEW, false, true⟩
    else
      ⟨baseScore, adjustedScore, deltas, totalNumericDelta, determinedTier,
        naceRestriction, ageRestriction, determinedTier, false, false⟩

/-- The numeric component of a delta outcome (the source guards each
summand with `typeof … === "number"`, so sentinels contribute 0). -/
def DeltaOutcome.numericPart : DeltaOutcome → ℚ
  | .num q => q
  | _ => 0

/-- `calculateAdjustedScore` of the score calculator (phase 1: the three
delta lookups, the clamped adjusted score; then `scoreRestrictionPhase`). -/
def calculateAdjustedScore (input : ScoreCalculationInput) : ScoreCalculationResult :=
  let baseScore := input.creditRating
  let postcodeDelta := getPostcodeDelta input.postalCode
  let naceDelta := getWorstNumericNaceDelta input.naceCodes
  let ageDelta := getWorstNumericAgeDelta input.companyAgeYears
  let deltas := [postcodeDelta, naceDelta, ageDelta]
  let totalNumericDelta :=
    postcodeDelta.delta.numericPart + naceDelta.delta.numericPart + ageDelta.delta.numericPart
  let adjustedScore := max 0 (min 100 (baseScore + totalNumericDelta))
  scoreRestrictionPhase baseScore adjustedScore deltas totalNumericDelta
    input.naceCodes input.companyAgeYears

/-- Result of one rule evaluation (`RuleResult` in `types/rules.ts`).
The free-form JSON payloads `actualValue`/`expectedValue` are elided: no
embedded function and no claim reads them. -/
structure RuleResult where
  ruleId : String
  category : String
  tier : Tier
  passed : Bool
  reason : String
deriving DecidableEq, Repr

/-- Return value of `aggregateResults`. -/
structure AggregateOutcome where
  finalTier : Tier
  triggeringRule : Option RuleResult
deriving DecidableEq, Repr

/-- The worst-tier fold of `aggregateResults` (strict `<` on the tier
ordinal, starting from EXCELLENT with no rule recorded). -/
def worstTierFold (results : List RuleResult) : Tier × Option RuleResult :=
  results.foldl
    (fun st r => if r.tier.ord < st.1.ord then (r.tier, some r) else st)
    (Tier.EXCELLENT, none)

/-- `aggregateResults` of `rules/registry.ts`: first REJECTED wins, then
first MANUAL_REVIEW, then the worst (lowest-ordinal) tier; an empty list
yields EXCELLENT with no triggering rule. -/
def aggregateResults (results : List RuleResult) : AggregateOutcome :=
  match results.find? (fun r => r.tier = Tier.REJECTED) with
  | some rejection => ⟨Tier.REJECTED, some rejection⟩
  | none =>
    match results.find? (fun r => r.tier = Tier.MANUAL_REVIEW) with
    | some manualReview => ⟨Tier.MANUAL_REVIEW, some manualReview⟩
    | none =>
      if results = [] then ⟨Tier.EXCELLENT, none⟩
      else
        let st := worstTierFold results
        ⟨st.1, st.2⟩

/-- A bankruptcy record attached to the bureau report (only the field the
embedded rules read). -/
structure Bankruptcy where
  yearsAgo : ℚ
deriving DecidableEq, Repr

/-- Normalized bureau data (`CreditsafeData` of `creditsafe/mapper.ts`),
restricted to the fields the embedded rules and the enrichment plumbing
read. -/
structure CreditsafeData where
  companyName : String
  companyAgeYears : ℚ
  incorporationDate : String
  creditRating : ℚ
  creditRatingGrade : String
  creditRatingDescription : String
  isActive : Bool
  companyStatus : String
  bankruptcies : List Bankruptcy
deriving DecidableEq, Repr

/-- VAT-registry data as seen by the rules (`ViesData`). -/
structure ViesData where
  valid : Bool
  companyName : Option String
  companyAddress : Option String
  error : Option String
  apiCallFailed : Bool
deriving DecidableEq, Repr

/-- Normalized screening data (`KycProtectData` of
`kyc-protect/mapper.ts`); the detailed screening fields are elided — only
its presence/absence matters to the claims. -/
structure KycProtectData where
  searchedName : String
  totalHits : Nat
deriving DecidableEq, Repr

/-- The enriched per-request context consumed by every rule
(`RuleContext`); the questionnaire and company-input fields are elided —
the embedded rules do not read them. -/
structure RuleContext where
  creditsafe : Option CreditsafeData
  vies : Option ViesData
  kycProtect : Option KycProtectData
  scoreCalculation : Option ScoreCalculationResult
  creditsafeFailed : Bool
  viesFailed : Bool
  kycProtectFailed : Bool
deriving DecidableEq, Repr

/-- A registered rule (`Rule` of `types/rules.ts`). -/
structure Rule where
  id : String
  category : String
  evaluate : RuleContext → RuleResult

/-- `countBankruptciesInScope` of `creditsafe/mapper.ts`. -/
def countBankruptciesInScope (bankruptcies : List Bankruptcy) (scopeYears : ℚ) : Nat :=
  (bankruptcies.filter (fun b => b.yearsAgo ≤ scopeYears)).length

/-- The best→worst walk shared by the graded rules: the four concrete
tiers in evaluation order. -/
def gradedTiers : List Tier := [.EXCELLENT, .GOOD, .FAIR, .POOR]

/-- `creditRatingRule` of `rules/categories/company.ts`: MANUAL_REVIEW
when the bureau data is missing; otherwise the best tier whose credit
floor the adjusted score (or the raw score when no score calculation is
present) clears; REJECTED below every floor. -/
def creditRatingRule : Rule where
  id := "credit-rating"
  category := "company"
  evaluate := fun context =>
    match context.creditsafe with
    | none =>
      ⟨"credit-rating", "company", .MANUAL_REVIEW, false,
        "Credit rating unavailable - Creditsafe data not available"⟩
    | some creditsafe =>
      let adjustedScore :=
        match context.scoreCalculation with
        | some scoreCalc => scoreCalc.adjustedScore
        | none => creditsafe.creditRating
      match gradedTiers.find? (fun tier => adjustedScore ≥ (tierThresholds tier).creditRatingMin) with
      | some tier =>
        ⟨"credit-rating", "company", tier, true,
          "Score " ++ numStr adjustedScore ++ " meets tier threshold"⟩
      | none =>
        ⟨"credit-rating", "company", .REJECTED, false,
          "Score " ++ numStr adjustedScore ++ " is too low"⟩

/-- `companyAgeRule` of `rules/categories/company.ts`: MANUAL_REVIEW when
the bureau data is missing; otherwise the best tier whose company-age
floor is met; REJECTED below every floor. -/
def companyAgeRule : Rule where
  id := "company-age"
  category := "company"
  evaluate := fun context =>
    match context.creditsafe with
    | none =>
      ⟨"company-age", "company", .MANUAL_REVIEW, false,
        "Company age unavailable - Creditsafe data not available"⟩
    | some creditsafe =>
      let companyAgeYears := creditsafe.companyAgeYears
      match gradedTiers.find? (fun tier => companyAgeYears ≥ (tierThresholds tier).minCompanyYears) with
      | some tier =>
        ⟨"company-age", "company", tier, true,
          "Company is " ++ toFixed1 companyAgeYears ++ " years old, meets tier threshold"⟩
      | none =>
        ⟨"company-age", "company", .REJECTED, false,
          "Company is " ++ toFixed1 companyAgeYears ++ " years old, below minimum"⟩

/-- `adminBankruptciesRule` of `rules/categories/admin.ts`: MANUAL_REVIEW
when the bureau data is missing; otherwise the best tier whose
in-scope bankruptcy count is within the tier cap; REJECTED otherwise. -/
def adminBankruptciesRule : Rule where
  id := "admin-bankruptcies"
  category := "admin"
  evaluate := fun context =>
    match context.creditsafe with
    | none =>
      ⟨"admin-bankruptcies", "admin", .MANUAL_REVIEW, false,
        "Bankruptcy information unavailable"⟩
    | some creditsafe =>
      let bankruptcies := creditsafe.bankruptcies
      match gradedTiers.find? (fun tier =>
          countBankruptciesInScope bankruptcies (tierThresholds tier).bankruptcyScopeYears
            ≤ (tierThresholds tier).maxAdminBankruptcies) with
      | some tier =>
        ⟨"admin-bankruptcies", "admin", tier, true, "Bankruptcy count within tier limit"⟩
      | none =>
        ⟨"admin-bankruptcies", "admin", .REJECTED, false, "Bankruptcy count exceeds maximum"⟩

/-- Parsed 2xx body of the VIES REST endpoint (`ViesResponse` in
`services/vies/types.ts`). -/
structure ViesResponse where
  isValid : Bool
  requestDate : String
  userError : Option String
  name : Option String
  address : Option String
deriving DecidableEq, Repr

/-- Outcome of `validateVatNumber` (`ViesResult` in
`services/vies/types.ts`). -/
structure ViesResult where
  valid : Bool
  companyName : Option String
  companyAddress : Option String
  error : Option String
deriving DecidableEq, Repr

/-- What one `fetch` of the VIES endpoint does, abstracting the network:
it aborts on the 10 s timeout, throws some other error, or delivers an
HTTP response (2xx responses carry a parsed body). -/
inductive FetchOutcome where
  | timeout
  | netError (msg : String)
  | response (status : Nat) (body : ViesResponse)
deriving DecidableEq, Repr

/-- `MAX_RETRIES` of `vies/client.ts` (4 retries, 5 total attempts). -/
def MAX_RETRIES : Nat := 4

/-- `RETRYABLE_ERRORS` of `vies/client.ts`. -/
def RETRYABLE_ERRORS : List String :=
  ["MS_MAX_CONCURRENT_REQ", "TIMEOUT", "SERVICE_UNAVAILABLE", "MS_UNAVAILABLE",
   "GLOBAL_MAX_CONCURRENT_REQ"]

/-- `isRetryableError` of `vies/client.ts`: the upper-cased message
contains one of the known transient error codes. -/
def isRetryableError (errorMessage : Option String) : Bool :=
  match errorMessage with
  | none => false
  | some msg =>
    RETRYABLE_ERRORS.any (fun err => decide (err.data <:+: (toUpperStr msg).data))

/-- HTTP `response.ok`. -/
def httpOk (status : Nat) : Bool :=
  200 ≤ status && status < 300

/-- The retry loop of `validateVatNumber`, one constructor case per source
branch.  `fuel` counts the remaining loop iterations
(`MAX_RETRIES + 1 - attempt`); the returned `Nat` is the number of fetch
attempts actually made.  Backoff delays are timing-only and not
modelled. -/
def viesAttemptLoop (responses : Nat → FetchOutcome) :
    (fuel : Nat) → (attempt : Nat) → (lastError : Option String) → ViesResult × Nat
  | 0, attempt, lastError =>
    (⟨false, none, none, some (lastError.getD "Unknown error after retries")⟩, attempt)
  | fuel + 1, attempt, _ =>
    match responses attempt with
    | .timeout =>
      if attempt < MAX_RETRIES then
        viesAttemptLoop responses fuel (attempt + 1) (some "VIES API timeout")
      else (⟨false, none, none, some "VIES API timeout"⟩, attempt + 1)
    | .netError msg =>
      let errorMsg := "VIES API error: " ++ msg
      if attempt < MAX_RETRIES then
        viesAttemptLoop responses fuel (attempt + 1) (some errorMsg)
      else (⟨false, none, none, some errorMsg⟩, attempt + 1)
    | .response status body =>
      if httpOk status then
        if strTruthy body.userError && isRetryableError body.userError then
          if attempt < MAX_RETRIES then
            viesAttemptLoop responses fuel (attempt + 1) body.userError
          else (⟨false, none, none, body.userError⟩, attempt + 1)
        else
          (⟨body.isValid, body.name, body.address,
            if body.userError = some "VALID" then none else body.userError⟩, attempt + 1)
      else
        let errorMsg := "VIES API returned status " ++ toString status
        if 400 ≤ status ∧ status < 500 then (⟨false, none, none, some errorMsg⟩, attempt + 1)
        else if attempt < MAX_RETRIES then
          viesAttemptLoop responses fuel (attempt + 1) (some errorMsg)
        else (⟨false, none, none, some errorMsg⟩, attempt + 1)

/-- Uppercase of the first two characters (the country-code parse of
`validateVatNumber`). -/
def countryCodeOf (vatNumber : String) : String :=
  toUpperStr ⟨vatNumber.data.take 2⟩

/-- `validateVatNumber` of `vies/client.ts`, with the result paired with
the number of fetch attempts made. -/
def validateVatNumberRun (vatNumber : String) (responses : Nat → FetchOutcome) :
    ViesResult × Nat :=
  let countryCode := countryCodeOf vatNumber
  if countryCode ≠ "BE" then
    (⟨false, none, none,
      some ("Only Belgian VAT numbers supported. Got country code: " ++ countryCode)⟩, 0)
  else
    viesAttemptLoop responses (MAX_RETRIES + 1) 0 none

/-- `validateVatNumber` proper (drops the attempt count). -/
def validateVatNumber (vatNumber : String) (responses : Nat → FetchOutcome) : ViesResult :=
  (validateVatNumberRun vatNumber responses).1

/-- A settled promise (`Promise.allSettled` element). -/
inductive SettledResult (α : Type) where
  | fulfilled (value : α)
  | rejected (reason : String)
deriving DecidableEq, Repr

/-- `EnrichmentResult` of `services/data-enrichment.ts`. -/
structure EnrichmentResult where
  creditsafe : Option CreditsafeData
  vies : Option ViesResult
  kycProtect : Option KycProtectData
  creditsafeFailed : Bool
  viesFailed : Bool
  kycProtectFailed : Bool
  errors : List String
deriving DecidableEq, Repr

/-- `mapCreditsafeResponse`: the bureau payload is modelled already in
internal shape (the field-by-field normalization of the mapper is not
claim-relevant), so the mapper is the identity on it. -/
def mapCreditsafeResponse (data : CreditsafeData) : CreditsafeData := data

/-- `enrichData` of `services/data-enrichment.ts`.  The two parallel
settled promises and the guarded KYC call (search + mapping composed) are
inputs; each source's outcome is folded into the result independently.  A
fulfilled bureau lookup may still carry `none` (company not found). -/
def enrichData (vatNumber : String)
    (creditsafeResult : SettledResult (Option CreditsafeData))
    (viesResult : SettledResult ViesResult)
    (kycLookup : String → Except String KycProtectData) : EnrichmentResult :=
  let (creditsafe, creditsafeFailed, creditsafeErrors) :
      Option CreditsafeData × Bool × List String :=
    match creditsafeResult with
    | .fulfilled (some value) => (some (mapCreditsafeResponse value), false, [])
    | .fulfilled none =>
      (none, true, ["Company not found in Creditsafe: " ++ vatNumber])
    | .rejected reason => (none, true, ["Creditsafe API error: " ++ reason])
  let (vies, viesFailed, viesErrors) : Option ViesResult × Bool × List String :=
    match viesResult with
    | .fulfilled value =>
      if strTruthy value.error && value.error ≠ some "VALID" then
        (some value, true, ["VIES error: " ++ value.error.getD ""])
      else (some value, false, [])
    | .rejected reason => (none, true, ["VIES API error: " ++ reason])
  let companyName : Option String :=
    if strTruthy (creditsafe.map CreditsafeData.companyName) then
      creditsafe.map CreditsafeData.companyName
    else vies.bind ViesResult.companyName
  let (kycProtect, kycProtectFailed, kycErrors) :
      Option KycProtectData × Bool × List String :=
    match companyName with
    | some name =>
      if name = "" then (none, false, [])
      else
        match kycLookup name with
        | .ok data => (some data, false, [])
        | .error e => (none, true, ["KYC Protect API error: " ++ e])
    | none => (none, false, [])
  ⟨creditsafe, vies, kycProtect, creditsafeFailed, viesFailed, kycProtectFailed,
    creditsafeErrors ++ viesErrors ++ kycErrors⟩

/-! ### Aggregation (C1) -/

theorem Tier.ord_injective : ∀ a b : Tier, a.ord = b.ord → a = b := by
  intro a b h
  cases a <;> cases b <;> simp_all [Tier.ord]

theorem worstTierFold_go_le (rs : List RuleResult) (init : Tier × Option RuleResult) :
    (rs.foldl (fun st r => if r.tier.ord < st.1.ord then (r.tier, some r) else st) init).1.ord
        ≤ init.1.ord ∧
      ∀ r ∈ rs,
        (rs.foldl (fun st r => if r.tier.ord < st.1.ord then (r.tier, some r) else st)
            init).1.ord ≤ r.tier.ord := by
  induction rs generalizing init with
  | nil => exact ⟨Nat.le_refl _, fun r hr => absurd hr (List.not_mem_nil r)⟩
  | cons a rs ih =>
    simp only [List.foldl_cons]
    by_cases h : a.tier.ord < init.1.ord
    · have step := ih (a.tier, some a)
      simp only [if_pos h] at step ⊢
      refine ⟨Nat.le_trans step.1 (Nat.le_of_lt h), fun r hr => ?_⟩
      rcases List.mem_cons.mp hr with rfl | hr
      · exact step.1
      · exact step.2 r hr
    · have step := ih init
      simp only [if_neg h] at step ⊢
      refine ⟨step.1, fun r hr => ?_⟩
      rcases List.mem_cons.mp hr with rfl | hr
      · exact Nat.le_trans step.1 (Nat.le_of_not_lt h)
      · exact step.2 r hr

theorem worstTierFold_go_mem (rs : List RuleResult) (init : Tier × Option RuleResult) :
    (rs.foldl (fun st r => if r.tier.ord < st.1.ord then (r.tier, some r) else st) init).1
        = init.1 ∨
      (rs.foldl (fun st r => if r.tier.ord < st.1.ord then (r.tier, some r) else st)
          init).1 ∈ rs.map RuleResult.tier := by
  induction rs generalizing init with
  | nil => exact Or.inl rfl
  | cons a rs ih =>
    simp only [List.foldl_cons, List.map_cons, List.mem_cons]
    by_cases h : a.tier.ord < init.1.ord
    · simp only [if_pos h]
      rcases ih (a.tier, some a) with heq | hmem
      · exact Or.inr (Or.inl heq)
      · exact Or.inr (Or.inr hmem)
    · simp only [if_neg h]
      rcases ih init with heq | hmem
      · exact Or.inl heq
      · exact Or.inr (Or.inr hmem)

/-- C1: `aggregateResults` returns REJECTED as soon as one result is
REJECTED (reporting the first such result in list order); otherwise
MANUAL_REVIEW when one result is MANUAL_REVIEW; otherwise the
minimum-ordinal (worst) tier occurring among the results; the empty list
yields EXCELLENT with no triggering rule. -/
theorem C1_aggregateResults (rs : List RuleResult) :
    ((∃ r ∈ rs, r.tier = Tier.REJECTED) →
      (aggregateResults rs).finalTier = Tier.REJECTED ∧
        ∃ pre r post, rs = pre ++ r :: post ∧ r.tier = Tier.REJECTED ∧
          (∀ x ∈ pre, x.tier ≠ Tier.REJECTED) ∧
          (aggregateResults rs).triggeringRule = some r) ∧
    ((∀ r ∈ rs, r.tier ≠ Tier.REJECTED) → (∃ r ∈ rs, r.tier = Tier.MANUAL_REVIEW) →
      (aggregateResults rs).finalTier = Tier.MANUAL_REVIEW) ∧
    (rs = [] → aggregateResults rs = ⟨Tier.EXCELLENT, none⟩) ∧
    ((∀ r ∈ rs, r.tier ≠ Tier.REJECTED ∧ r.tier ≠ Tier.MANUAL_REVIEW) → rs ≠ [] →
      (aggregateResults rs).finalTier ∈ rs.map RuleResult.tier ∧
        ∀ r ∈ rs, ((aggregateResults rs).finalTier).ord ≤ r.tier.ord) := by
  refine ⟨?_, ?_, ?_, ?_⟩
  · rintro ⟨r, hr, htier⟩
    have hsome : (rs.find? (fun r => r.tier = Tier.REJECTED)).isSome := by
      rw [List.find?_isSome]
      exact ⟨r, hr, by simp [htier]⟩
    rcases Option.isSome_iff_exists.mp hsome with ⟨w, hw⟩
    rcases List.find?_eq_some.mp hw with ⟨hpw, pre, post, hsplit, hpre⟩
    refine ⟨?_, pre, w, post, hsplit, by simpa using hpw, ?_, ?_⟩
    · simp [aggregateResults, hw]
    · intro x hx
      have := hpre x hx
      simpa using this
    · simp [aggregateResults, hw]
  · intro hnone
    rintro ⟨r, hr, htier⟩
    have hrejnone : rs.find? (fun r => r.tier = Tier.REJECTED) = none := by
      rw [List.find?_eq_none]
      intro x hx
      simpa using hnone x hx
    have hsome : (rs.find? (fun r => r.tier = Tier.MANUAL_REVIEW)).isSome := by
      rw [List.find?_isSome]
      exact ⟨r, hr, by simp [htier]⟩
    rcases Option.isSome_iff_exists.mp hsome with ⟨w, hw⟩
    simp [aggregateResults, hrejnone, hw]
  · rintro rfl
    simp [aggregateResults]
  · intro hclean hne
    have hrejnone : rs.find? (fun r => r.tier = Tier.REJECTED) = none := by
      rw [List.find?_eq_none]
      intro x hx
      simpa using (hclean x hx).1
    have hmannone : rs.find? (fun r => r.tier = Tier.MANUAL_REVIEW) = none := by
      rw [List.find?_eq_none]
      intro x hx
      simpa using (hclean x hx).2
    have hfold := worstTierFold_go_le rs (Tier.EXCELLENT, none)
    have hmem := worstTierFold_go_mem rs (Tier.EXCELLENT, none)
    have hagg : aggregateResults rs =
        ⟨(rs.foldl (fun st r => if r.tier.ord < st.1.ord then (r.tier, some r) else st)
            (Tier.EXCELLENT, none)).1,
          (rs.foldl (fun st r => if r.tier.ord < st.1.ord then (r.tier, some r) else st)
            (Tier.EXCELLENT, none)).2⟩ := by
      simp [aggregateResults, worstTierFold, hrejnone, hmannone, hne]
    rw [hagg]
    constructor
    · rcases hmem with heq | hmemtier
      · rcases List.exists_mem_of_ne_nil rs hne with ⟨r0, hr0⟩
        have hle := hfold.2 r0 hr0
        rw [heq] at hle ⊢
        have hle5 : (5 : Nat) ≤ r0.tier.ord := by simpa [Tier.ord] using hle
        have hub : r0.tier.ord ≤ 5 := by cases h : r0.tier <;> simp [Tier.ord]
        have h5 : r0.tier.ord = 5 := Nat.le_antisymm hub hle5
        have hex : r0.tier = Tier.EXCELLENT := Tier.ord_injective _ _ h5
        show Tier.EXCELLENT ∈ rs.map RuleResult.tier
        rw [← hex]
        exact List.mem_map_of_mem RuleResult.tier hr0
      · exact hmemtier
    · intro r hr
      exact hfold.2 r hr

/-- Witness for C1 at concrete rule-result lists covering each branch. -/
theorem C1_aggregateResults_witness :
    (aggregateResults [⟨"m", "c", Tier.MANUAL_REVIEW, false, ""⟩,
        ⟨"r1", "c", Tier.REJECTED, false, ""⟩,
        ⟨"r2", "c", Tier.REJECTED, false, ""⟩]).finalTier = Tier.REJECTED ∧
    (aggregateResults [⟨"g", "c", Tier.GOOD, true, ""⟩,
        ⟨"m", "c", Tier.MANUAL_REVIEW, false, ""⟩]).finalTier = Tier.MANUAL_REVIEW ∧
    aggregateResults [] = ⟨Tier.EXCELLENT, none⟩ ∧
    (aggregateResults [⟨"g", "c", Tier.GOOD, true, ""⟩,
        ⟨"f", "c", Tier.FAIR, true, ""⟩]).finalTier ∈
      ([⟨"g", "c", Tier.GOOD, true, ""⟩,
        ⟨"f", "c", Tier.FAIR, true, ""⟩] : List RuleResult).map RuleResult.tier := by
  refine ⟨?_, ?_, ?_, ?_⟩
  · exact ((C1_aggregateResults _).1 ⟨⟨"r1", "c", Tier.REJECTED, false, ""⟩, by decide⟩).1
  · exact (C1_aggregateResults _).2.1 (by decide) ⟨⟨"m", "c", Tier.MANUAL_REVIEW, false, ""⟩, by decide⟩
  · exact (C1_aggregateResults _).2.2.1 rfl
  · exact ((C1_aggregateResults _).2.2.2 (by decide) (by decide)).1

/-! ### Score calculation (C2, C3, C4, C10) -/

theorem scoreRestrictionPhase_baseScore (b a : ℚ) (ds : List DeltaResult) (tnd : ℚ)
    (nc : List String) (ay : ℚ) : (scoreRestrictionPhase b a ds tnd nc ay).baseScore = b := by
  simp only [scoreRestrictionPhase]
  split
  · rfl
  · split
    · rfl
    · split
      · rfl
      · rfl

theorem scoreRestrictionPhase_adjustedScore (b a : ℚ) (ds : List DeltaResult) (tnd : ℚ)
    (nc : List String) (ay : ℚ) : (scoreRestrictionPhase b a ds tnd nc ay).adjustedScore = a := by
  simp only [scoreRestrictionPhase]
  split
  · rfl
  · split
    · rfl
    · split
      · rfl
      · rfl

theorem scoreRestrictionPhase_totalNumericDelta (b a : ℚ) (ds : List DeltaResult) (tnd : ℚ)
    (nc : List String) (ay : ℚ) :
    (scoreRestrictionPhase b a ds tnd nc ay).totalNumericDelta = tnd := by
  simp only [scoreRestrictionPhase]
  split
  · rfl
  · split
    · rfl
    · split
      · rfl
      · rfl

/-- C2: the adjusted score equals the base score (the input credit rating)
plus the total numeric delta, clamped to [0, 100]; the total numeric delta
sums exactly the numeric components of the postcode, NACE and age deltas
(sentinel outcomes contribute nothing to the sum); the adjusted score is
always within [0, 100]. -/
theorem C2_adjustedScore_invariant (input : ScoreCalculationInput) :
    (calculateAdjustedScore input).baseScore = input.creditRating ∧
    (calculateAdjustedScore input).totalNumericDelta =
      (getPostcodeDelta input.postalCode).delta.numericPart +
        (getWorstNumericNaceDelta input.naceCodes).delta.numericPart +
        (getWorstNumericAgeDelta input.companyAgeYears).delta.numericPart ∧
    (calculateAdjustedScore input).adjustedScore =
      max 0 (min 100 ((calculateAdjustedScore input).baseScore +
        (calculateAdjustedScore input).totalNumericDelta)) ∧
    0 ≤ (calculateAdjustedScore input).adjustedScore ∧
    (calculateAdjustedScore input).adjustedScore ≤ 100 := by
  have hb := scoreRestrictionPhase_baseScore input.creditRating
  have ha := scoreRestrictionPhase_adjustedScore input.creditRating
  have ht := scoreRestrictionPhase_totalNumericDelta input.creditRating
  refine ⟨?_, ?_, ?_, ?_, ?_⟩
  · simp [calculateAdjustedScore, hb]
  · simp [calculateAdjustedScore, ht]
  · simp only [calculateAdjustedScore, hb, ha, ht]
  · simp only [calculateAdjustedScore, ha]
    exact le_max_left _ _
  · simp only [calculateAdjustedScore, ha]
    exact max_le (by norm_num) (min_le_left _ _)

theorem scoreRestrictionPhase_determinedTier (b a : ℚ) (ds : List DeltaResult) (tnd : ℚ)
    (nc : List String) (ay : ℚ) :
    (scoreRestrictionPhase b a ds tnd nc ay).determinedTier = determineTierFromScore a := by
  simp only [scoreRestrictionPhase]
  split
  · rfl
  · split
    · rfl
    · split
      · rfl
      · rfl

theorem scoreRestrictionPhase_naceRestriction (b a : ℚ) (ds : List DeltaResult) (tnd : ℚ)
    (nc : List String) (ay : ℚ) (hdet : ¬ determineTierFromScore a = Tier.REJECTED) :
    (scoreRestrictionPhase b a ds tnd nc ay).naceRestriction =
      (getNaceOutcomeForTier nc (determineTierFromScore a)).map (·.1) := by
  simp only [scoreRestrictionPhase, if_neg hdet]
  split
  · rfl
  · split
    · rfl
    · rfl

theorem scoreRestrictionPhase_ageRestriction (b a : ℚ) (ds : List DeltaResult) (tnd : ℚ)
    (nc : List String) (ay : ℚ) (hdet : ¬ determineTierFromScore a = Tier.REJECTED) :
    (scoreRestrictionPhase b a ds tnd nc ay).ageRestriction =
      (getAgeOutcomeForTier ay (determineTierFromScore a)).map (·.1) := by
  simp only [scoreRestrictionPhase, if_neg hdet]
  split
  · rfl
  · split
    · rfl
    · rfl

theorem scoreRestrictionPhase_finalTier (b a : ℚ) (ds : List DeltaResult) (tnd : ℚ)
    (nc : List String) (ay : ℚ) (hdet : ¬ determineTierFromScore a = Tier.REJECTED) :
    (scoreRestrictionPhase b a ds tnd nc ay).finalTier =
      (if (getNaceOutcomeForTier nc (determineTierFromScore a)).map (·.1)
            = some DeltaOutcome.reject ∨
          (getAgeOutcomeForTier ay (determineTierFromScore a)).map (·.1)
            = some DeltaOutcome.reject then Tier.REJECTED
        else if (getNaceOutcomeForTier nc (determineTierFromScore a)).map (·.1)
            = some DeltaOutcome.manual ∨
          (getAgeOutcomeForTier ay (determineTierFromScore a)).map (·.1)
            = some DeltaOutcome.manual then Tier.MANUAL_REVIEW
        else determineTierFromScore a) := by
  simp only [scoreRestrictionPhase, if_neg hdet]
  split
  · rfl
  · split
    · rfl
    · rfl

/-- C4: tier determination walks the four concrete tiers best→worst and
returns the first whose credit floor is ≤ the adjusted score (REJECTED when
none qualifies); the determined tier of a score-calculation result is
exactly this walk applied to its adjusted score; and in the branch where
the walk yields REJECTED the calculator returns finalTier REJECTED at once
with both restriction fields null (restriction checks skipped). -/
theorem C4_tierDetermination :
    (∀ q : ℚ, determineTierFromScore q =
      (gradedTiers.find? (fun t => (tierThresholds t).creditRatingMin ≤ q)).getD
        Tier.REJECTED) ∧
    (∀ input : ScoreCalculationInput,
      (calculateAdjustedScore input).determinedTier =
        determineTierFromScore (calculateAdjustedScore input).adjustedScore) ∧
    (∀ (b a : ℚ) (ds : List DeltaResult) (tnd : ℚ) (nc : List String) (ay : ℚ),
      determineTierFromScore a = Tier.REJECTED →
      scoreRestrictionPhase b a ds tnd nc ay =
        ⟨b, a, ds, tnd, Tier.REJECTED, none, none, Tier.REJECTED, true, false⟩) := by
  refine ⟨?_, ?_, ?_⟩
  · intro q
    by_cases h1 : (tierThresholds Tier.EXCELLENT).creditRatingMin ≤ q
    · simp [determineTierFromScore, gradedTiers, h1, ge_iff_le]
    · by_cases h2 : (tierThresholds Tier.GOOD).creditRatingMin ≤ q
      · simp [determineTierFromScore, gradedTiers, h1, h2, ge_iff_le]
      · by_cases h3 : (tierThresholds Tier.FAIR).creditRatingMin ≤ q
        · simp [determineTierFromScore, gradedTiers, h1, h2, h3, ge_iff_le]
        · by_cases h4 : (tierThresholds Tier.POOR).creditRatingMin ≤ q
          · simp [determineTierFromScore, gradedTiers, h1, h2, h3, h4, ge_iff_le]
          · simp [determineTierFromScore, gradedTiers, h1, h2, h3, h4, ge_iff_le]
  · intro input
    simp only [calculateAdjustedScore, scoreRestrictionPhase_determinedTier,
      scoreRestrictionPhase_adjustedScore]
  · intro b a ds tnd nc ay h
    simp [scoreRestrictionPhase, h]

/-- Witness for C4: a below-floor adjusted score (only reachable by calling
the phase directly, see C10) takes the early REJECTED return, and the walk
classifies concrete scores as documented. -/
theorem C4_tierDetermination_witness :
    determineTierFromScore (-1) = Tier.REJECTED ∧
    determineTierFromScore 50 = Tier.FAIR ∧
    scoreRestrictionPhase 50 (-1) [] 0 [] 0 =
      ⟨50, -1, [], 0, Tier.REJECTED, none, none, Tier.REJECTED, true, false⟩ ∧
    (calculateAdjustedScore ⟨80, none, [], 10⟩).determinedTier =
      determineTierFromScore (calculateAdjustedScore ⟨80, none, [], 10⟩).adjustedScore := by
  refine ⟨by decide, by decide, ?_, ?_⟩
  · exact C4_tierDetermination.2.2 50 (-1) [] 0 [] 0 (by decide)
  · exact C4_tierDetermination.2.1 ⟨80, none, [], 10⟩

/-- C10: because the POOR credit floor is 0 and the adjusted score is
clamped to at least 0, the below-floor REJECTED branch is unreachable from
`calculateAdjustedScore` — the determined tier is never REJECTED, so a
REJECTED final tier can only come from a "reject" restriction outcome of
the NACE or age table. -/
theorem C10_scoreRejectionUnreachable (input : ScoreCalculationInput) :
    (calculateAdjustedScore input).determinedTier ≠ Tier.REJECTED ∧
    ((calculateAdjustedScore input).finalTier = Tier.REJECTED →
      (calculateAdjustedScore input).naceRestriction = some DeltaOutcome.reject ∨
        (calculateAdjustedScore input).ageRestriction = some DeltaOutcome.reject) := by
  have hnonneg : ∀ q : ℚ, 0 ≤ q → ¬ determineTierFromScore q = Tier.REJECTED := by
    intro q hq
    unfold determineTierFromScore
    split_ifs with h1 h2 h3 h4 <;> simp_all [tierThresholds]
  have hdet : ¬ determineTierFromScore
      (max 0 (min 100 (input.creditRating +
        ((getPostcodeDelta input.postalCode).delta.numericPart +
          (getWorstNumericNaceDelta input.naceCodes).delta.numericPart +
          (getWorstNumericAgeDelta input.companyAgeYears).delta.numericPart))))
      = Tier.REJECTED := by
    exact hnonneg _ (le_max_left _ _)
  constructor
  · simp only [calculateAdjustedScore, scoreRestrictionPhase_determinedTier]
    exact hdet
  · simp only [calculateAdjustedScore,
      scoreRestrictionPhase_finalTier _ _ _ _ _ _ hdet,
      scoreRestrictionPhase_naceRestriction _ _ _ _ _ _ hdet,
      scoreRestrictionPhase_ageRestriction _ _ _ _ _ _ hdet]
    intro hfin
    by_contra hnone
    push_neg at hnone
    rw [if_neg (by tauto)] at hfin
    split at hfin
    · exact absurd hfin (by decide)
    · exact hdet hfin

unseal Rat.mul Rat.add Rat.sub in
/-- Witness for C10: a FAIR-scored diamond-trade company is rejected via
the NACE restriction, never via the score. -/
theorem C10_scoreRejectionUnreachable_witness :
    (calculateAdjustedScore ⟨50, none, ["46.72"], 10⟩).naceRestriction
        = some DeltaOutcome.reject ∨
      (calculateAdjustedScore ⟨50, none, ["46.72"], 10⟩).ageRestriction
        = some DeltaOutcome.reject :=
  (C10_scoreRejectionUnreachable ⟨50, none, ["46.72"], 10⟩).2 (by decide)

theorem naceOutcomeStep_preserves_reject (tk : TierKey)
    (st : Option (DeltaOutcome × NaceDelta × String)) (c : String)
    (h : ∃ e c0, st = some (DeltaOutcome.reject, e, c0)) :
    ∃ e c0, naceOutcomeStep tk st c = some (DeltaOutcome.reject, e, c0) := by
  rcases h with ⟨e, c0, rfl⟩
  unfold naceOutcomeStep
  cases hf : findNaceEntry c with
  | none => exact ⟨e, c0, rfl⟩
  | some entry =>
    by_cases ho : entry.forKey tk = DeltaOutcome.reject
    · exact ⟨entry, c, by simp [ho]⟩
    · refine ⟨e, c0, ?_⟩
      simp only [if_neg ho]
      rw [if_neg (by simp)]
      cases hfk : entry.forKey tk <;> simp

theorem naceOutcomeStep_sets_reject (tk : TierKey)
    (st : Option (DeltaOutcome × NaceDelta × String)) (c : String) (e : NaceDelta)
    (hf : findNaceEntry c = some e) (ho : e.forKey tk = DeltaOutcome.reject) :
    ∃ e0 c0, naceOutcomeStep tk st c = some (DeltaOutcome.reject, e0, c0) := by
  unfold naceOutcomeStep
  rw [hf]
  cases st with
  | none => exact ⟨e, c, by simp [ho]⟩
  | some w => exact ⟨e, c, by simp [ho]⟩

theorem naceOutcomeFold_reject (tk : TierKey) :
    ∀ (codes : List String) (st : Option (DeltaOutcome × NaceDelta × String)),
      ((∃ c ∈ codes, ∃ e, findNaceEntry c = some e ∧ e.forKey tk = DeltaOutcome.reject) ∨
        (∃ e c0, st = some (DeltaOutcome.reject, e, c0))) →
      ∃ e c0, codes.foldl (naceOutcomeStep tk) st = some (DeltaOutcome.reject, e, c0)
  | [], st, h => by
    rcases h with ⟨c, hc, _⟩ | hst
    · exact absurd hc (List.not_mem_nil c)
    · simpa using hst
  | c :: cs, st, h => by
    rw [List.foldl_cons]
    rcases h with ⟨c1, hc1, e1, hf1, ho1⟩ | hst
    · rcases List.mem_cons.mp hc1 with rfl | hmem
      · exact naceOutcomeFold_reject tk cs (naceOutcomeStep tk st c1)
          (Or.inr (naceOutcomeStep_sets_reject tk st c1 e1 hf1 ho1))
      · exact naceOutcomeFold_reject tk cs (naceOutcomeStep tk st c)
          (Or.inl ⟨c1, hmem, e1, hf1, ho1⟩)
    · exact naceOutcomeFold_reject tk cs (naceOutcomeStep tk st c)
        (Or.inr (naceOutcomeStep_preserves_reject tk st c hst))

/-- C3: when a concrete tier was determined, a "reject" outcome of the
NACE or age table at that tier forces finalTier REJECTED; otherwise a
"manual" outcome forces MANUAL_REVIEW; otherwise finalTier is the
determined tier.  The restriction fields are exactly the per-tier table
outcomes at the determined tier, and within the NACE scan "reject" wins
whenever any matching code rejects at that tier — even if another
matching code yields "manual" there. -/
theorem C3_restrictionPrecedence :
    (∀ input : ScoreCalculationInput,
      (calculateAdjustedScore input).determinedTier ≠ Tier.REJECTED →
      ((calculateAdjustedScore input).naceRestriction =
        (getNaceOutcomeForTier input.naceCodes
          (calculateAdjustedScore input).determinedTier).map (·.1)) ∧
      ((calculateAdjustedScore input).ageRestriction =
        (getAgeOutcomeForTier input.companyAgeYears
          (calculateAdjustedScore input).determinedTier).map (·.1)) ∧
      (((calculateAdjustedScore input).naceRestriction = some DeltaOutcome.reject ∨
          (calculateAdjustedScore input).ageRestriction = some DeltaOutcome.reject) →
        (calculateAdjustedScore input).finalTier = Tier.REJECTED) ∧
      ((calculateAdjustedScore input).naceRestriction ≠ some DeltaOutcome.reject →
        (calculateAdjustedScore input).ageRestriction ≠ some DeltaOutcome.reject →
        ((calculateAdjustedScore input).naceRestriction = some DeltaOutcome.manual ∨
          (calculateAdjustedScore input).ageRestriction = some DeltaOutcome.manual) →
        (calculateAdjustedScore input).finalTier = Tier.MANUAL_REVIEW) ∧
      ((calculateAdjustedScore input).naceRestriction ≠ some DeltaOutcome.reject →
        (calculateAdjustedScore input).ageRestriction ≠ some DeltaOutcome.reject →
        (calculateAdjustedScore input).naceRestriction ≠ some DeltaOutcome.manual →
        (calculateAdjustedScore input).ageRestriction ≠ some DeltaOutcome.manual →
        (calculateAdjustedScore input).finalTier =
          (calculateAdjustedScore input).determinedTier)) ∧
    (∀ (codes : List String) (tier : Tier) (tk : TierKey), getTierKey tier = some tk →
      (∃ c ∈ codes, ∃ e, findNaceEntry c = some e ∧ e.forKey tk = DeltaOutcome.reject) →
      ∃ e c0, getNaceOutcomeForTier codes tier = some (DeltaOutcome.reject, e, c0)) := by
  constructor
  · intro input hdet0
    have hdet : ¬ determineTierFromScore
        (max 0 (min 100 (input.creditRating +
          ((getPostcodeDelta input.postalCode).delta.numericPart +
            (getWorstNumericNaceDelta input.naceCodes).delta.numericPart +
            (getWorstNumericAgeDelta input.companyAgeYears).delta.numericPart))))
        = Tier.REJECTED := by
      intro hcontra
      apply hdet0
      simp only [calculateAdjustedScore, scoreRestrictionPhase_determinedTier]
      exact hcontra
    have hdt : (calculateAdjustedScore input).determinedTier =
        determineTierFromScore
          (max 0 (min 100 (input.creditRating +
            ((getPostcodeDelta input.postalCode).delta.numericPart +
              (getWorstNumericNaceDelta input.naceCodes).delta.numericPart +
              (getWorstNumericAgeDelta input.companyAgeYears).delta.numericPart)))) := by
      simp only [calculateAdjustedScore, scoreRestrictionPhase_determinedTier]
    refine ⟨?_, ?_, ?_, ?_, ?_⟩
    · rw [hdt]
      simp only [calculateAdjustedScore, scoreRestrictionPhase_naceRestriction _ _ _ _ _ _ hdet]
    · rw [hdt]
      simp only [calculateAdjustedScore, scoreRestrictionPhase_ageRestriction _ _ _ _ _ _ hdet]
    · intro hrej
      simp only [calculateAdjustedScore,
        scoreRestrictionPhase_naceRestriction _ _ _ _ _ _ hdet,
        scoreRestrictionPhase_ageRestriction _ _ _ _ _ _ hdet,
        scoreRestrictionPhase_finalTier _ _ _ _ _ _ hdet] at hrej ⊢
      rw [if_pos hrej]
    · intro hnr har hman
      simp only [calculateAdjustedScore,
        scoreRestrictionPhase_naceRestriction _ _ _ _ _ _ hdet,
        scoreRestrictionPhase_ageRestriction _ _ _ _ _ _ hdet,
        scoreRestrictionPhase_finalTier _ _ _ _ _ _ hdet] at hnr har hman ⊢
      rw [if_neg (by tauto), if_pos hman]
    · intro hnr har hnm ham
      simp only [calculateAdjustedScore,
        scoreRestrictionPhase_naceRestriction _ _ _ _ _ _ hdet,
        scoreRestrictionPhase_ageRestriction _ _ _ _ _ _ hdet,
        scoreRestrictionPhase_finalTier _ _ _ _ _ _ hdet,
        scoreRestrictionPhase_determinedTier] at hnr har hnm ham ⊢
      rw [if_neg (by tauto), if_neg (by tauto)]
  · intro codes tier tk htk hex
    rcases hex with ⟨c, hc, e, hf, ho⟩
    have hne : codes ≠ [] := by
      intro hnil
      rw [hnil] at hc
      exact absurd hc (List.not_mem_nil c)
    unfold getNaceOutcomeForTier
    rw [if_neg hne, htk]
    exact naceOutcomeFold_reject tk codes none (Or.inl ⟨c, hc, e, hf, ho⟩)

unseal Rat.mul Rat.add Rat.sub in
/-- Witness for C3: a POOR-tier applicant holding both a diamond-trade
code (manual at POOR) and a car-trade code (reject at POOR): reject wins;
and a FAIR-tier diamond-trade applicant is rejected by the NACE
restriction. -/
theorem C3_restrictionPrecedence_witness :
    (∃ e c0, getNaceOutcomeForTier ["46.72", "45.11"] Tier.POOR
      = some (DeltaOutcome.reject, e, c0)) ∧
    (calculateAdjustedScore ⟨50, none, ["46.72"], 10⟩).finalTier = Tier.REJECTED ∧
    (calculateAdjustedScore ⟨80, none, [], 10⟩).finalTier =
      (calculateAdjustedScore ⟨80, none, [], 10⟩).determinedTier := by
  refine ⟨?_, ?_, ?_⟩
  · exact C3_restrictionPrecedence.2 ["46.72", "45.11"] Tier.POOR TierKey.poor (by decide)
      ⟨"45.11", by decide, ⟨["45.11", "45.19"], "Autohandel", .num (-20), .num (-20),
        .num 0, .reject⟩, by decide, by decide⟩
  · exact ((C3_restrictionPrecedence.1 ⟨50, none, ["46.72"], 10⟩ (by decide)).2.2.1
      (Or.inl (by decide)))
  · exact ((C3_restrictionPrecedence.1 ⟨80, none, [], 10⟩ (by decide)).2.2.2.2
      (by decide) (by decide) (by decide) (by decide))

/-! ### Postcode longest-prefix lookup (C5) -/

set_option maxHeartbeats 2000000 in
theorem postcodeDeltas_sorted :
    postcodeDeltas.Pairwise (fun a b => b.pfx.length ≤ a.pfx.length) := by decide

set_option maxHeartbeats 2000000 in
theorem sortedPostcodeDeltas_eq : sortedPostcodeDeltas = postcodeDeltas := by
  apply List.mergeSort_of_sorted
  decide

theorem postcodeFind_longest (q : PostcodeDelta → Bool) (l : List PostcodeDelta)
    (hp : l.Pairwise (fun a b => b.pfx.length ≤ a.pfx.length)) (e : PostcodeDelta)
    (he : l.find? q = some e) :
    q e = true ∧ ∀ e2 ∈ l, q e2 = true → e2.pfx.length ≤ e.pfx.length := by
  induction l with
  | nil => simp at he
  | cons a l ih =>
    rcases List.pairwise_cons.mp hp with ⟨ha, hl⟩
    by_cases hqa : q a
    · rw [List.find?_cons_of_pos _ hqa] at he
      cases he
      refine ⟨hqa, fun e2 he2 hq2 => ?_⟩
      rcases List.mem_cons.mp he2 with rfl | hmem
      · exact Nat.le_refl _
      · exact ha e2 hmem
    · rw [List.find?_cons_of_neg _ (by simpa using hqa)] at he
      obtain ⟨hqe, hbound⟩ := ih hl he
      refine ⟨hqe, fun e2 he2 hq2 => ?_⟩
      rcases List.mem_cons.mp he2 with rfl | hmem
      · exact absurd hq2 (by simpa using hqa)
      · exact hbound e2 hmem hq2

theorem postcodePrefixes_nodup : (postcodeDeltas.map PostcodeDelta.pfx).Nodup := by decide

/-- C5: `getPostcodeDelta` picks, among all configured entries whose prefix
is a string prefix of the cleaned (digits-only) postal code, the entry with
the longest prefix and returns its delta; with no matching entry the delta
is 0; a null, empty, or non-digit postal code yields delta 0 through its
own branch with a description distinct from the no-match default; and no
two configured entries share a prefix, so ties on prefix length cannot
occur. -/
theorem C5_postcodeLongestPrefix :
    (∀ (pc : String), ¬ pc = "" → ¬ cleanPostal pc = "" →
      ∀ entry ∈ postcodeDeltas, strStartsWith (cleanPostal pc) entry.pfx = true →
      ∃ chosen ∈ postcodeDeltas,
        strStartsWith (cleanPostal pc) chosen.pfx = true ∧
        (getPostcodeDelta (some pc)).delta = DeltaOutcome.num chosen.delta ∧
        ∀ e2 ∈ postcodeDeltas, strStartsWith (cleanPostal pc) e2.pfx = true →
          e2.pfx.length ≤ chosen.pfx.length) ∧
    (∀ (pc : String), ¬ pc = "" → ¬ cleanPostal pc = "" →
      (∀ e ∈ postcodeDeltas, ¬ strStartsWith (cleanPostal pc) e.pfx = true) →
      (getPostcodeDelta (some pc)).delta = DeltaOutcome.num 0) ∧
    (getPostcodeDelta none =
      ⟨.postcode, .str "unknown", .num 0, "Postal code unavailable: no adjustment applied"⟩) ∧
    (∀ (pc : String), ¬ pc = "" → cleanPostal pc = "" →
      getPostcodeDelta (some pc) =
        ⟨.postcode, .str pc, .num 0,
          "Invalid postal code \"" ++ pc ++ "\": no adjustment applied"⟩ ∧
      (getPostcodeDelta (some pc)).description ≠
        "Postal code " ++ pc ++ ": no adjustment (default region)") ∧
    (postcodeDeltas.map PostcodeDelta.pfx).Nodup := by
  refine ⟨?_, ?_, rfl, ?_, postcodePrefixes_nodup⟩
  · intro pc hpc hclean entry hmem hmatch
    have hsome : (postcodeDeltas.find?
        (fun e => strStartsWith (cleanPostal pc) e.pfx)).isSome := by
      rw [List.find?_isSome]
      exact ⟨entry, hmem, hmatch⟩
    obtain ⟨chosen, hch⟩ := Option.isSome_iff_exists.mp hsome
    obtain ⟨hq, hbound⟩ := postcodeFind_longest _ _ postcodeDeltas_sorted chosen hch
    refine ⟨chosen, List.mem_of_find?_eq_some hch, hq, ?_, hbound⟩
    simp only [getPostcodeDelta, if_neg hpc, if_neg hclean, sortedPostcodeDeltas_eq, hch]
  · intro pc hpc hclean hnone
    have hfind : postcodeDeltas.find? (fun e => strStartsWith (cleanPostal pc) e.pfx)
        = none := by
      rw [List.find?_eq_none]
      intro x hx
      simpa using hnone x hx
    simp only [getPostcodeDelta, if_neg hpc, if_neg hclean, sortedPostcodeDeltas_eq, hfind]
  · intro pc hpc hclean
    constructor
    · simp only [getPostcodeDelta, if_neg hpc, if_pos hclean]
    · simp only [getPostcodeDelta, if_neg hpc, if_pos hclean]
      intro h
      have hlen := congrArg String.length h
      have h1 : ("Invalid postal code \"" : String).length = 21 := rfl
      have h2 : ("\": no adjustment applied" : String).length = 24 := rfl
      have h3 : ("Postal code " : String).length = 12 := rfl
      have h4 : (": no adjustment (default region)" : String).length = 32 := rfl
      simp only [String.length_append, h1, h2, h3, h4] at hlen
      omega

/-- Witness for C5 at concrete postal codes: "1080" resolves through the
longest matching prefix "108" (not "10"); "6600" matches nothing; "ABC"
cleans to empty. -/
theorem C5_postcodeLongestPrefix_witness :
    (∃ chosen ∈ postcodeDeltas,
      strStartsWith (cleanPostal "1080") chosen.pfx = true ∧
      (getPostcodeDelta (some "1080")).delta = DeltaOutcome.num chosen.delta ∧
      ∀ e2 ∈ postcodeDeltas, strStartsWith (cleanPostal "1080") e2.pfx = true →
        e2.pfx.length ≤ chosen.pfx.length) ∧
    (getPostcodeDelta (some "6600")).delta = DeltaOutcome.num 0 ∧
    (getPostcodeDelta (some "ABC")).delta = DeltaOutcome.num 0 := by
  refine ⟨?_, ?_, ?_⟩
  · exact C5_postcodeLongestPrefix.1 "1080" (by decide) (by decide)
      ⟨"108", "Molenbeek", -30⟩ (by decide) (by decide)
  · exact C5_postcodeLongestPrefix.2.1 "6600" (by decide) (by decide) (by decide)
  · exact ((C5_postcodeLongestPrefix.2.2.2.1 "ABC" (by decide) (by decide)).1 ▸ rfl)

/-! ### NACE pattern matching (C6) -/

theorem strStartsWith_iff (s p : String) :
    strStartsWith s p = true ↔ p.data <+: s.data := by
  unfold strStartsWith
  exact List.isPrefixOf_iff_prefix

theorem data_append_dot (p : String) : (p ++ ".").data = p.data ++ ['.'] := by
  rw [String.data_append]

/-- C6: a NACE code matches a pattern either exactly or — only for
2-character patterns — as a true segment prefix: the cleaned code equals
the pattern or continues with a "." separator right after it.  In
particular "55" matches "55" and "55.10" but never "551", and "5" never
matches "55". -/
theorem C6_naceSegmentPrefix :
    (∀ (code : String) (patterns : List String),
      naceCodeMatches code patterns = true ↔
        ∃ pat ∈ patterns, cleanNaceCode code = pat ∨
          (pat.length = 2 ∧ strStartsWith (cleanNaceCode code) (pat ++ ".") = true)) ∧
    naceCodeMatches "55" ["55"] = true ∧
    naceCodeMatches "55.10" ["55"] = true ∧
    naceCodeMatches "551" ["55"] = false ∧
    naceCodeMatches "55" ["5"] = false := by
  refine ⟨?_, by decide, by decide, by decide, by decide⟩
  intro code patterns
  unfold naceCodeMatches
  rw [List.any_eq_true]
  apply exists_congr
  intro pat
  apply and_congr_right
  intro _
  set s := cleanNaceCode code with hs
  constructor
  · intro hp
    by_cases h1 : s = pat
    · exact Or.inl h1
    · rw [if_neg h1] at hp
      by_cases h2 : (pat.length = 2 && strStartsWith s pat) = true
      · rw [if_pos h2] at hp
        rw [Bool.and_eq_true] at h2
        obtain ⟨hl2, hsw⟩ := h2
        have hl2 : pat.length = 2 := by simpa using hl2
        obtain ⟨t, ht⟩ := (strStartsWith_iff s pat).mp hsw
        refine Or.inr ⟨hl2, ?_⟩
        rw [Bool.or_eq_true, Bool.or_eq_true] at hp
        rcases hp with (hp1 | hp2) | hp3
        · -- s.length = 2 together with the prefix forces s = pat
          exfalso
          apply h1
          apply String.ext
          have hslen : s.data.length = 2 := of_decide_eq_true hp1
          have hplen : pat.data.length = 2 := hl2
          exact (((strStartsWith_iff s pat).mp hsw).eq_of_length (by omega)).symm
        · -- character at index 2 is "." : reconstruct the "pat ++ ." prefix
          have hdot : s.data.get? 2 = some '.' := of_decide_eq_true hp2
          have hplen : pat.data.length = 2 := hl2
          rw [strStartsWith_iff, data_append_dot]
          rw [← ht] at hdot
          rw [List.get?_append_right (by omega)] at hdot
          simp only [hplen] at hdot
          cases t with
          | nil => simp at hdot
          | cons c t2 =>
            simp at hdot
            rw [← ht, hdot]
            exact ⟨t2, by simp⟩
        · exact hp3
      · rw [if_neg h2] at hp
        exact absurd hp (by simp)
  · intro hp
    rcases hp with rfl | ⟨hl2, hsw⟩
    · rw [if_pos rfl]
    · by_cases h1 : s = pat
      · rw [if_pos h1]
      · have hswp : strStartsWith s pat = true := by
          rw [strStartsWith_iff]
          refine List.IsPrefix.trans ?_ ((strStartsWith_iff _ _).mp hsw)
          rw [data_append_dot]
          exact List.prefix_append pat.data ['.']
        rw [if_neg h1, if_pos (by simp [hl2, hswp])]
        simp [hsw]

/-! ### VIES retry policy (C7) -/

theorem viesAttemptLoop_le (responses : Nat → FetchOutcome) :
    ∀ (fuel attempt : Nat) (lastError : Option String),
      (viesAttemptLoop responses fuel attempt lastError).2 ≤ attempt + fuel
  | 0, attempt, lastError => by
    simp [viesAttemptLoop]
  | fuel + 1, attempt, lastError => by
    unfold viesAttemptLoop
    have ht := viesAttemptLoop_le responses fuel (attempt + 1)
    cases responses attempt with
    | timeout =>
      by_cases h : attempt < MAX_RETRIES
      · simp only [if_pos h]
        have := ht (some "VIES API timeout")
        omega
      · simp only [if_neg h]
        omega
    | netError msg =>
      by_cases h : attempt < MAX_RETRIES
      · simp only [if_pos h]
        have := ht (some ("VIES API error: " ++ msg))
        omega
      · simp only [if_neg h]
        omega
    | response status body =>
      by_cases hok : httpOk status = true
      · simp only [if_pos hok]
        by_cases hretry : (strTruthy body.userError && isRetryableError body.userError) = true
        · simp only [if_pos hretry]
          by_cases h : attempt < MAX_RETRIES
          · simp only [if_pos h]
            have := ht body.userError
            omega
          · simp only [if_neg h]
            omega
        · simp only [if_neg hretry]
          omega
      · simp only [if_neg hok]
        by_cases h4 : 400 ≤ status ∧ status < 500
        · simp only [if_pos h4]
          omega
        · simp only [if_neg h4]
          by_cases h : attempt < MAX_RETRIES
          · simp only [if_pos h]
            have := ht (some ("VIES API returned status " ++ toString status))
            omega
          · simp only [if_neg h]
            omega

/-- A retry trigger in the spec's sense: a request timeout, a 5xx status,
or a (truthy) known transient error code inside a 2xx body. -/
def specRetryTrigger : FetchOutcome → Prop
  | .timeout => True
  | .netError _ => False
  | .response status body =>
    (500 ≤ status ∧ status < 600) ∨
      (httpOk status = true ∧ strTruthy body.userError = true ∧
        isRetryableError body.userError = true)

theorem viesAttemptLoop_allRetry (responses : Nat → FetchOutcome) :
    ∀ (fuel attempt : Nat) (lastError : Option String),
      attempt + fuel = MAX_RETRIES + 1 →
      (∀ i, attempt ≤ i → i ≤ MAX_RETRIES → specRetryTrigger (responses i)) →
      (viesAttemptLoop responses fuel attempt lastError).2 = MAX_RETRIES + 1 ∧
        (viesAttemptLoop responses fuel attempt lastError).1.valid = false ∧
        (viesAttemptLoop responses fuel attempt lastError).1.error.isSome = true
  | 0, attempt, lastError => by
    intro hsum htr
    refine ⟨by simpa [viesAttemptLoop] using hsum, by simp [viesAttemptLoop], by simp [viesAttemptLoop]⟩
  | fuel + 1, attempt, lastError => by
    intro hsum htr
    have hattempt : attempt ≤ MAX_RETRIES := by omega
    have htrig := htr attempt (Nat.le_refl _) hattempt
    have htail : ∀ i, attempt + 1 ≤ i → i ≤ MAX_RETRIES → specRetryTrigger (responses i) :=
      fun i hi1 hi2 => htr i (by omega) hi2
    have hsum2 : attempt + 1 + fuel = MAX_RETRIES + 1 := by omega
    unfold viesAttemptLoop
    cases hresp : responses attempt with
    | timeout =>
      by_cases h : attempt < MAX_RETRIES
      · simp only [if_pos h]
        exact viesAttemptLoop_allRetry responses fuel (attempt + 1)
          (some "VIES API timeout") hsum2 htail
      · simp only [if_neg h]
        refine ⟨by simp; omega, by simp, by simp⟩
    | netError msg =>
      rw [hresp] at htrig
      exact absurd htrig (by simp [specRetryTrigger])
    | response status body =>
      rw [hresp] at htrig
      rcases htrig with ⟨h5a, h5b⟩ | ⟨hok, htruthy, hretry⟩
      · have hok : ¬ httpOk status = true := by
          simp only [httpOk, Bool.and_eq_true, decide_eq_true_eq]
          omega
        have h4 : ¬ (400 ≤ status ∧ status < 500) := by omega
        simp only [if_neg hok, if_neg h4]
        by_cases h : attempt < MAX_RETRIES
        · simp only [if_pos h]
          exact viesAttemptLoop_allRetry responses fuel (attempt + 1)
            (some ("VIES API returned status " ++ toString status)) hsum2 htail
        · simp only [if_neg h]
          refine ⟨by simp; omega, by simp, by simp⟩
      · have hcond : (strTruthy body.userError && isRetryableError body.userError) = true := by
          rw [htruthy, hretry]
          rfl
        simp only [if_pos hok, if_pos hcond]
        by_cases h : attempt < MAX_RETRIES
        · simp only [if_pos h]
          exact viesAttemptLoop_allRetry responses fuel (attempt + 1) body.userError hsum2 htail
        · simp only [if_neg h]
          refine ⟨by simp; omega, by simp, ?_⟩
          cases hue : body.userError with
          | none => rw [hue] at htruthy; simp [strTruthy] at htruthy
          | some m => simp

/-- C7: `validateVatNumber` makes at most 5 total attempts; a 4xx response
fails immediately without retrying (its body is never consulted); when
every attempt hits a retry trigger — timeout, 5xx, or a known transient
error code inside a 2xx body — the loop performs exactly 5 attempts and
returns a failure result instead of throwing; and the registry's own
"VALID" sentinel in the error field is never classified as an error. -/
theorem C7_viesRetryPolicy :
    (∀ (vat : String) (responses : Nat → FetchOutcome),
      (validateVatNumberRun vat responses).2 ≤ MAX_RETRIES + 1) ∧
    (∀ (vat : String) (responses : Nat → FetchOutcome) (status : Nat) (body : ViesResponse),
      countryCodeOf vat = "BE" → responses 0 = FetchOutcome.response status body →
      400 ≤ status → status < 500 →
      validateVatNumberRun vat responses =
        (⟨false, none, none, some ("VIES API returned status " ++ toString status)⟩, 1)) ∧
    (∀ (vat : String) (responses : Nat → FetchOutcome),
      countryCodeOf vat = "BE" →
      (∀ i, i ≤ MAX_RETRIES → specRetryTrigger (responses i)) →
      (validateVatNumberRun vat responses).2 = MAX_RETRIES + 1 ∧
        (validateVatNumberRun vat responses).1.valid = false ∧
        (validateVatNumberRun vat responses).1.error.isSome = true) ∧
    (∀ (vat : String) (responses : Nat → FetchOutcome) (body : ViesResponse),
      countryCodeOf vat = "BE" → responses 0 = FetchOutcome.response 200 body →
      body.userError = some "VALID" →
      validateVatNumberRun vat responses =
        (⟨body.isValid, body.name, body.address, none⟩, 1)) ∧
    isRetryableError (some "VALID") = false := by
  refine ⟨?_, ?_, ?_, ?_, by decide⟩
  · intro vat responses
    unfold validateVatNumberRun
    by_cases hbe : countryCodeOf vat ≠ "BE"
    · simp only [if_pos hbe]
      omega
    · simp only [if_neg hbe]
      have := viesAttemptLoop_le responses (MAX_RETRIES + 1) 0 none
      omega
  · intro vat responses status body hbe hresp h4a h4b
    unfold validateVatNumberRun
    rw [if_neg (by simp [hbe])]
    have hok : ¬ httpOk status = true := by
      simp only [httpOk, Bool.and_eq_true, decide_eq_true_eq]
      omega
    unfold viesAttemptLoop
    rw [hresp]
    simp only [if_neg hok, if_pos (And.intro h4a h4b)]
  · intro vat responses hbe htr
    unfold validateVatNumberRun
    rw [if_neg (by simp [hbe])]
    exact viesAttemptLoop_allRetry responses (MAX_RETRIES + 1) 0 none (by omega)
      (fun i _ hi => htr i hi)
  · intro vat responses body hbe hresp hue
    unfold validateVatNumberRun
    rw [if_neg (by simp [hbe])]
    unfold viesAttemptLoop
    rw [hresp]
    have hok : httpOk 200 = true := by decide
    have hcond : ¬ (strTruthy body.userError && isRetryableError body.userError) = true := by
      rw [hue]
      decide
    simp only [if_pos hok, if_neg hcond, hue]
    simp
    intro _ h2
    exact absurd h2 (by decide)

/-- Witness for C7 at concrete response schedules: a 404 fails in one
attempt, a persistent 500 exhausts all 5 attempts, and a "VALID" sentinel
body succeeds on the first attempt with no error. -/
theorem C7_viesRetryPolicy_witness :
    validateVatNumberRun "BE0123456789"
        (fun _ => FetchOutcome.response 404 ⟨false, "", none, none, none⟩) =
      (⟨false, none, none, some "VIES API returned status 404"⟩, 1) ∧
    (validateVatNumberRun "BE0123456789"
        (fun _ => FetchOutcome.response 500 ⟨false, "", none, none, none⟩)).2 =
      MAX_RETRIES + 1 ∧
    validateVatNumberRun "BE0123456789"
        (fun _ => FetchOutcome.response 200 ⟨true, "", some "VALID", some "ACME", none⟩) =
      (⟨true, some "ACME", none, none⟩, 1) ∧
    (validateVatNumberRun "BE0123456789" (fun _ => FetchOutcome.timeout)).2 ≤
      MAX_RETRIES + 1 := by
  refine ⟨?_, ?_, ?_, ?_⟩
  · exact C7_viesRetryPolicy.2.1 "BE0123456789" _ 404 ⟨false, "", none, none, none⟩
      (by decide) rfl (by decide) (by decide)
  · exact (C7_viesRetryPolicy.2.2.1 "BE0123456789" _ (by decide)
      (fun i _ => by simp [specRetryTrigger])).1
  · exact C7_viesRetryPolicy.2.2.2.1 "BE0123456789" _ ⟨true, "", some "VALID", some "ACME", none⟩
      (by decide) rfl rfl
  · exact C7_viesRetryPolicy.1 "BE0123456789" _

/-! ### Rules on missing bureau data (C9) -/

theorem missingBureau_manualTier (ctx : RuleContext) (h : ctx.creditsafe = none) :
    (creditRatingRule.evaluate ctx).tier = Tier.MANUAL_REVIEW ∧
      (companyAgeRule.evaluate ctx).tier = Tier.MANUAL_REVIEW ∧
      (adminBankruptciesRule.evaluate ctx).tier = Tier.MANUAL_REVIEW := by
  refine ⟨?_, ?_, ?_⟩ <;>
    simp [creditRatingRule, companyAgeRule, adminBankruptciesRule, h]

/-- C9: when the bureau fetch failed (no Creditsafe data in the context),
the credit-rating, company-age and admin-bankruptcies rules each
independently return MANUAL_REVIEW, and aggregation then returns
MANUAL_REVIEW even when every other rule passed at EXCELLENT. -/
theorem C9_missingBureauManualReview :
    (∀ ctx : RuleContext, ctx.creditsafe = none →
      (creditRatingRule.evaluate ctx).tier = Tier.MANUAL_REVIEW ∧
        (companyAgeRule.evaluate ctx).tier = Tier.MANUAL_REVIEW ∧
        (adminBankruptciesRule.evaluate ctx).tier = Tier.MANUAL_REVIEW) ∧
    (∀ (ctx : RuleContext) (others : List RuleResult), ctx.creditsafe = none →
      (∀ r ∈ others, r.tier = Tier.EXCELLENT) →
      (aggregateResults (others ++ [creditRatingRule.evaluate ctx,
        companyAgeRule.evaluate ctx, adminBankruptciesRule.evaluate ctx])).finalTier =
        Tier.MANUAL_REVIEW) := by
  refine ⟨missingBureau_manualTier, ?_⟩
  intro ctx others h hexc
  obtain ⟨h1, h2, h3⟩ := missingBureau_manualTier ctx h
  have hrej : (others ++ [creditRatingRule.evaluate ctx, companyAgeRule.evaluate ctx,
      adminBankruptciesRule.evaluate ctx]).find? (fun r => r.tier = Tier.REJECTED) = none := by
    rw [List.find?_eq_none]
    intro x hx
    rcases List.mem_append.mp hx with hx | hx
    · rw [hexc x hx]
      simp
    · simp only [List.mem_cons, List.mem_singleton] at hx
      rcases hx with rfl | rfl | (rfl | hx)
      · simp [h1]
      · simp [h2]
      · simp [h3]
      · exact absurd hx (List.not_mem_nil x)
  have hothers : others.find? (fun r => r.tier = Tier.MANUAL_REVIEW) = none := by
    rw [List.find?_eq_none]
    intro x hx
    rw [hexc x hx]
    simp
  have hman : (others ++ [creditRatingRule.evaluate ctx, companyAgeRule.evaluate ctx,
      adminBankruptciesRule.evaluate ctx]).find? (fun r => r.tier = Tier.MANUAL_REVIEW) =
      some (creditRatingRule.evaluate ctx) := by
    rw [List.find?_append, hothers]
    simp [List.find?, h1]
  simp [aggregateResults, hrej, hman]

/-- Witness for C9: an empty context with no bureau data and a single
EXCELLENT-passing other rule aggregates to MANUAL_REVIEW. -/
theorem C9_missingBureauManualReview_witness :
    (aggregateResults ([⟨"other", "c", Tier.EXCELLENT, true, ""⟩] ++
      [creditRatingRule.evaluate ⟨none, none, none, none, true, false, false⟩,
        companyAgeRule.evaluate ⟨none, none, none, none, true, false, false⟩,
        adminBankruptciesRule.evaluate ⟨none, none, none, none, true, false, false⟩])).finalTier =
      Tier.MANUAL_REVIEW :=
  C9_missingBureauManualReview.2 ⟨none, none, none, none, true, false, false⟩
    [⟨"other", "c", Tier.EXCELLENT, true, ""⟩] rfl (by decide)

/-! ### Enrichment partial-failure tolerance (C8) -/

/-- C8: `enrichData` always returns a single `EnrichmentResult` (it is a
total function — no source failure ever aborts the orchestration): each
failed source independently sets its own `*Failed` flag and appends a
human-readable error string, while the other sources' successful values
are still carried into the result; the bureau fields depend only on the
bureau outcome and the VAT fields only on the VAT outcome. -/
theorem C8_enrichmentPartialFailure :
    (∀ (vat : String) (vs : SettledResult ViesResult)
        (kl : String → Except String KycProtectData) (r : String),
      (enrichData vat (.rejected r) vs kl).creditsafeFailed = true ∧
        (enrichData vat (.rejected r) vs kl).creditsafe = none ∧
        ("Creditsafe API error: " ++ r) ∈ (enrichData vat (.rejected r) vs kl).errors) ∧
    (∀ (vat : String) (vs : SettledResult ViesResult)
        (kl : String → Except String KycProtectData),
      (enrichData vat (.fulfilled none) vs kl).creditsafeFailed = true ∧
        ("Company not found in Creditsafe: " ++ vat) ∈
          (enrichData vat (.fulfilled none) vs kl).errors) ∧
    (∀ (vat : String) (cs : SettledResult (Option CreditsafeData))
        (kl : String → Except String KycProtectData) (r : String),
      (enrichData vat cs (.rejected r) kl).viesFailed = true ∧
        (enrichData vat cs (.rejected r) kl).vies = none ∧
        ("VIES API error: " ++ r) ∈ (enrichData vat cs (.rejected r) kl).errors) ∧
    (∀ (vat : String) (cs : SettledResult (Option CreditsafeData))
        (kl : String → Except String KycProtectData) (v : ViesResult) (e : String),
      v.error = some e → e ≠ "" → e ≠ "VALID" →
      (enrichData vat cs (.fulfilled v) kl).viesFailed = true ∧
        (enrichData vat cs (.fulfilled v) kl).vies = some v ∧
        ("VIES error: " ++ e) ∈ (enrichData vat cs (.fulfilled v) kl).errors) ∧
    (∀ (vat : String) (v : CreditsafeData) (vs : SettledResult ViesResult)
        (kl : String → Except String KycProtectData),
      (enrichData vat (.fulfilled (some v)) vs kl).creditsafe =
          some (mapCreditsafeResponse v) ∧
        (enrichData vat (.fulfilled (some v)) vs kl).creditsafeFailed = false) ∧
    (∀ (vat : String) (cs : SettledResult (Option CreditsafeData))
        (kl : String → Except String KycProtectData) (v : ViesResult),
      v.error = none →
      (enrichData vat cs (.fulfilled v) kl).vies = some v ∧
        (enrichData vat cs (.fulfilled v) kl).viesFailed = false) ∧
    (∀ (vat : String) (v : CreditsafeData) (vs : SettledResult ViesResult)
        (kl : String → Except String KycProtectData) (e : String),
      v.companyName ≠ "" → kl v.companyName = .error e →
      (enrichData vat (.fulfilled (some v)) vs kl).kycProtectFailed = true ∧
        ("KYC Protect API error: " ++ e) ∈
          (enrichData vat (.fulfilled (some v)) vs kl).errors) ∧
    (∀ (vat : String) (v : CreditsafeData) (vs : SettledResult ViesResult)
        (kl : String → Except String KycProtectData) (d : KycProtectData),
      v.companyName ≠ "" → kl v.companyName = .ok d →
      (enrichData vat (.fulfilled (some v)) vs kl).kycProtect = some d) ∧
    (∀ (vat : String) (cs : SettledResult (Option CreditsafeData))
        (vs vs2 : SettledResult ViesResult)
        (kl kl2 : String → Except String KycProtectData),
      (enrichData vat cs vs kl).creditsafe = (enrichData vat cs vs2 kl2).creditsafe ∧
        (enrichData vat cs vs kl).creditsafeFailed =
          (enrichData vat cs vs2 kl2).creditsafeFailed) ∧
    (∀ (vat : String) (cs cs2 : SettledResult (Option CreditsafeData))
        (vs : SettledResult ViesResult)
        (kl kl2 : String → Except String KycProtectData),
      (enrichData vat cs vs kl).vies = (enrichData vat cs2 vs kl2).vies ∧
        (enrichData vat cs vs kl).viesFailed = (enrichData vat cs2 vs kl2).viesFailed) := by
  refine ⟨?_, ?_, ?_, ?_, ?_, ?_, ?_, ?_, ?_, ?_⟩
  · intro vat vs kl r
    cases vs <;> simp [enrichData]
  · intro vat vs kl
    cases vs <;> simp [enrichData]
  · intro vat cs kl r
    cases cs with
    | fulfilled v => cases v <;> simp [enrichData]
    | rejected r2 => simp [enrichData]
  · intro vat cs kl v e he hne hnv
    have htr : strTruthy (some e) = true := by simp [strTruthy, hne]
    cases cs with
    | fulfilled w => cases w <;> simp [enrichData, he, htr, hnv]
    | rejected r2 => simp [enrichData, he, htr, hnv]
  · intro vat v vs kl
    cases vs <;> simp [enrichData]
  · intro vat cs kl v he
    have htr : strTruthy v.error = false := by simp [strTruthy, he]
    cases cs with
    | fulfilled w => cases w <;> simp [enrichData, htr]
    | rejected r2 => simp [enrichData, htr]
  · intro vat v vs kl e hnm hkl
    have htr : strTruthy (some v.companyName) = true := by simp [strTruthy, hnm]
    cases vs <;> simp [enrichData, mapCreditsafeResponse, htr, hnm, hkl]
  · intro vat v vs kl d hnm hkl
    have htr : strTruthy (some v.companyName) = true := by simp [strTruthy, hnm]
    cases vs <;> simp [enrichData, mapCreditsafeResponse, htr, hnm, hkl]
  · intro vat cs vs vs2 kl kl2
    cases cs with
    | fulfilled w => cases w <;> cases vs <;> cases vs2 <;> simp [enrichData]
    | rejected r => cases vs <;> cases vs2 <;> simp [enrichData]
  · intro vat cs cs2 vs kl kl2
    cases cs with
    | fulfilled w =>
      cases w <;> cases cs2 with
      | fulfilled w2 => cases w2 <;> cases vs <;> simp [enrichData]
      | rejected r => cases vs <;> simp [enrichData]
    | rejected r =>
      cases cs2 with
      | fulfilled w2 => cases w2 <;> cases vs <;> simp [enrichData]
      | rejected r2 => cases vs <;> simp [enrichData]

/-- Witness for C8 at concrete source outcomes: a VAT error body marks
only the VAT source failed; a failing screening call marks only the
screening source failed; a successful bureau payload is carried through
next to failures. -/
theorem C8_enrichmentPartialFailure_witness :
    (enrichData "BE1" (.rejected "boom")
        (.fulfilled ⟨true, some "ACME", none, some "MS_ERR"⟩)
        (fun _ => .ok ⟨"ACME", 0⟩)).viesFailed = true ∧
    (enrichData "BE1"
        (.fulfilled (some ⟨"ACME", 10, "2010-01-01", 80, "A", "Low", true, "Active", []⟩))
        (.fulfilled ⟨true, some "ACME", none, none⟩)
        (fun _ => .error "kaput")).kycProtectFailed = true ∧
    (enrichData "BE1"
        (.fulfilled (some ⟨"ACME", 10, "2010-01-01", 80, "A", "Low", true, "Active", []⟩))
        (.fulfilled ⟨true, some "ACME", none, none⟩)
        (fun _ => .ok ⟨"ACME", 0⟩)).kycProtect = some ⟨"ACME", 0⟩ ∧
    (enrichData "BE1"
        (.fulfilled (some ⟨"ACME", 10, "2010-01-01", 80, "A", "Low", true, "Active", []⟩))
        (.rejected "down")
        (fun _ => .ok ⟨"ACME", 0⟩)).creditsafeFailed = false := by
  refine ⟨?_, ?_, ?_, ?_⟩
  · exact (C8_enrichmentPartialFailure.2.2.2.1 "BE1" (.rejected "boom")
      (fun _ => .ok ⟨"ACME", 0⟩) ⟨true, some "ACME", none, some "MS_ERR"⟩ "MS_ERR"
      rfl (by decide) (by decide)).1
  · exact (C8_enrichmentPartialFailure.2.2.2.2.2.2.1 "BE1"
      ⟨"ACME", 10, "2010-01-01", 80, "A", "Low", true, "Active", []⟩
      (.fulfilled ⟨true, some "ACME", none, none⟩) (fun _ => .error "kaput") "kaput"
      (by decide) rfl).1
  · exact C8_enrichmentPartialFailure.2.2.2.2.2.2.2.1 "BE1"
      ⟨"ACME", 10, "2010-01-01", 80, "A", "Low", true, "Active", []⟩
      (.fulfilled ⟨true, some "ACME", none, none⟩) (fun _ => .ok ⟨"ACME", 0⟩) ⟨"ACME", 0⟩
      (by decide) rfl
  · exact (C8_enrichmentPartialFailure.2.2.2.2.1 "BE1"
      ⟨"ACME", 10, "2010-01-01", 80, "A", "Low", true, "Active", []⟩
      (.rejected "down") (fun _ => .ok ⟨"ACME", 0⟩)).2
